import Mathlib

set_option maxHeartbeats 2000000
set_option maxRecDepth 100000

/-!
Verification of the parsing and clock core of the MPEG Program Stream
demuxer (modules/demux/mpeg/ps.c).  The C code is shallowly embedded:
the byte stream is a `List Nat`, machine integers are `Int`/`Nat`, and
external collaborators (byte source, sink factory, PES parser, and the
helpers declared in ps.h/pes.h, which are not part of this source file)
enter as explicit parameters, or are modelled from the spec where noted.
-/

/-- CLOCK_FREQ: one clock second of the microsecond presentation clock. -/
def CLOCK_FREQ : Int := 1000000

/-- VLC_TS_INVALID: the unset-timestamp sentinel (0 in this VLC era). -/
def VLC_TS_INVALID : Int := 0

/-- VLC_TS_0: the first valid timestamp, VLC_TS_INVALID + 1. -/
def VLC_TS_0 : Int := 1

/-- VLC_SUCCESS return code. -/
def VLC_SUCCESS : Int := 0

/-- VLC_EGENERIC: the generic error return code. -/
def VLC_EGENERIC : Int := -1

/-- VLC_DEMUXER_EOF: demux callback result, end of stream. -/
def VLC_DEMUXER_EOF : Int := 0

/-- VLC_DEMUXER_SUCCESS: demux callback result, keep going. -/
def VLC_DEMUXER_SUCCESS : Int := 1

/-- VLC_DEMUXER_EGENERIC: demux callback result, generic error. -/
def VLC_DEMUXER_EGENERIC : Int := -1

/-- BLOCK_FLAG_DISCONTINUITY bit. -/
def BLOCK_FLAG_DISCONTINUITY : Nat := 1

/-- Reserved stream id: end of stream. -/
def PS_STREAM_ID_END_STREAM : Nat := 0xB9

/-- Reserved stream id: pack header. -/
def PS_STREAM_ID_PACK_HEADER : Nat := 0xBA

/-- Reserved stream id: system header. -/
def PS_STREAM_ID_SYSTEM_HEADER : Nat := 0xBB

/-- Reserved stream id: program stream map. -/
def PS_STREAM_ID_MAP : Nat := 0xBC

/-- Reserved stream id: private stream 1. -/
def PS_STREAM_ID_PRIVATE_STREAM1 : Nat := 0xBD

/-- A valid start code at byte offset `o` of the stream: 00 00 01 followed
by a stream id of at least 0xB9 (the test `p[0]==0 && p[1]==0 && p[2]==1 &&
p[3] >= PS_STREAM_ID_END_STREAM` of the source).  Reads outside the stream
yield the default 0, which cannot satisfy the id test, so an out-of-range
offset is never valid. -/
def validHeaderAt (bs : List Nat) (o : Nat) : Prop :=
  bs.getD o 1 = 0 ∧ bs.getD (o+1) 1 = 0 ∧ bs.getD (o+2) 0 = 1 ∧
  PS_STREAM_ID_END_STREAM ≤ bs.getD (o+3) 0

instance validHeaderAt.dec (bs : List Nat) (o : Nat) : Decidable (validHeaderAt bs o) := by
  unfold validHeaderAt; infer_instance

/-- The CDXA padding test of ps_pkt_resynch at window offset `o`: exactly 20
leading zero bytes (the scan `while (i < 24 && p[i] == 0)` stopping with
`i == 20`), then the fixed 12-byte synchronization pattern
00 ff ff ff ff ff ff ff ff ff ff 00 at offsets 24..35. -/
def cdxaPadAt (bs : List Nat) (o : Nat) : Prop :=
  (∀ j < 20, bs.getD (o+j) 1 = 0) ∧ bs.getD (o+20) 0 ≠ 0 ∧
  bs.getD (o+24) 1 = 0 ∧ (∀ j < 10, bs.getD (o+25+j) 0 = 0xFF) ∧
  bs.getD (o+35) 1 = 0

instance cdxaPadAt.dec (bs : List Nat) (o : Nat) : Decidable (cdxaPadAt bs o) := by
  unfold cdxaPadAt; infer_instance

/-- The scan loop of ps_pkt_resynch.  `i_peek` is the number of bytes left
in the peeked window, `i_skip` the current window offset.  The extra `fuel`
argument only makes the recursion structural: every iteration decreases
`i_peek` by at least 1, so with `fuel = i_peek` at the entry the fuel never
runs out before the loop's own `i_peek < 4` exit; the fuel-0 result equals
the exit result.  The final `vlc_stream_Read(s, NULL, i_skip)` always
succeeds because `i_skip` bytes were peeked, so the loop exit returns 0 and
a match returns 1, each paired with the number of consumed bytes. -/
def resynchLoop (bs : List Nat) (b_cdxa b_pack : Bool) :
    Nat → Nat → Nat → Int × Nat
  | 0, _, i_skip => (0, i_skip)
  | fuel+1, i_peek, i_skip =>
    if i_peek < 4 then (0, i_skip)
    else if b_cdxa = true ∧ i_skip = 0 ∧ 48 ≤ i_peek ∧ cdxaPadAt bs i_skip then
      resynchLoop bs b_cdxa b_pack fuel (i_peek - 48) (i_skip + 48)
    else if validHeaderAt bs i_skip ∧
        (¬ b_pack = true ∨ bs.getD (i_skip+3) 0 = PS_STREAM_ID_PACK_HEADER) then
      (1, i_skip)
    else
      resynchLoop bs b_cdxa b_pack fuel (i_peek - 1) (i_skip + 1)

/-- ps_pkt_resynch: relocate the next start code.  Result is the returned
code (-1 error, 0 not synched, 1 ok) paired with the number of bytes
consumed from the stream. -/
def ps_pkt_resynch (bs : List Nat) (b_cdxa b_pack : Bool) : Int × Nat :=
  if bs.length < 4 then (-1, 0)
  else if validHeaderAt bs 0 then (1, 0)
  else if min 512 bs.length < 4 then (-1, 0)
  else resynchLoop bs b_cdxa b_pack (min 512 bs.length) (min 512 bs.length) 0

/-- The inner scan of ps_pkt_read's malformed-length fallback: the first
offset in `[i_size, bound]` holding a valid start code (the loop
`while (i_size <= i_peek - 4)` with `bound = i_peek - 4`).  `fuel` makes
the recursion structural; every call supplies `fuel ≥ bound + 1 - i_size`. -/
def scanInner (bs : List Nat) : Nat → Nat → Nat → Option Nat
  | 0, _, _ => none
  | fuel+1, i_size, bound =>
    if bound < i_size then none
    else if validHeaderAt bs i_size then some i_size
    else scanInner bs fuel (i_size+1) bound

/-- The outer lookahead loop of ps_pkt_read's malformed-length fallback:
peek `i_size + 1024` bytes, give up (NULL) when at most `i_size + 4` bytes
come back, otherwise scan offsets `i_size .. i_peek - 4` and continue from
`i_peek - 3`.  `fuel` makes the recursion structural; `ps_pkt_read` passes
`bs.length + 1`, which the characterization lemmas show is enough. -/
def scanOuter (bs : List Nat) : Nat → Nat → Option Nat
  | 0, _ => none
  | fuel+1, i_size =>
    if min (i_size + 1024) bs.length ≤ i_size + 4 then none
    else
      match scanInner bs (min (i_size + 1024) bs.length - 3 - i_size) i_size
          (min (i_size + 1024) bs.length - 4) with
      | some o => some o
      | none => scanOuter bs fuel (min (i_size + 1024) bs.length - 3)

/-- ps_pkt_read.  `bs` is the stream from the current position; `psize` is
the value computed by the external `ps_pkt_size` helper (declared in ps.h,
which is not among the source files).  Modelled from the spec: ps_pkt_size
returns the packet's declared length from its header.  The result is
`some n` for a returned block of `n` bytes and `none` for NULL.  In the
special case (declared length at most 6 and an id above the pack-header id)
the function scans for the next start code; in the normal case the external
`vlc_stream_Block(s, i_size)` is modelled as delivering
`min i_size (length bs)` bytes, which no claim here depends on. -/
def ps_pkt_read (bs : List Nat) (psize : Int) : Option Nat :=
  if min 14 bs.length < 4 then none
  else if psize ≤ 6 ∧ PS_STREAM_ID_PACK_HEADER < bs.getD 3 0 then
    scanOuter bs (bs.length + 1) 6
  else some (min psize.toNat bs.length)

/-- Elementary-stream categories (es_format_t.i_cat). -/
inductive es_cat where
  | UNKNOWN_ES
  | VIDEO_ES
  | AUDIO_ES
  | SPU_ES
deriving DecidableEq, Repr

export es_cat (UNKNOWN_ES VIDEO_ES AUDIO_ES SPU_ES)

/-- Codec four-character codes are opaque external constants
(vlc_fourcc.h); only their distinctness matters here, so the three codecs
the source tests for are three distinct naturals, and 0 stands for any
other codec. -/
def VLC_CODEC_OGT : Nat := 1

/-- Codec id of the CVD subtitle format (see VLC_CODEC_OGT). -/
def VLC_CODEC_CVD : Nat := 2

/-- Codec id of the teletext format (see VLC_CODEC_OGT). -/
def VLC_CODEC_TELETEXT : Nat := 3

/-- PS_TK_COUNT (ps.h, not among the source files).  Modelled from the
spec: a fixed per-id track array over the representable multiplex ids
(0xC0..0xEF elementary ids plus the private-stream substream families),
768 entries. -/
def PS_TK_COUNT : Nat := 768

/-- PS_ID_TO_TK (ps.h, not among the source files).  Modelled from the
spec: every multiplex id maps to exactly one track slot ("an id maps to
exactly one Track"); the concrete slot arithmetic is immaterial to the
claims, so the id reduced into the slot range stands for it. -/
def PS_ID_TO_TK (i_id : Nat) : Fin PS_TK_COUNT :=
  ⟨i_id % PS_TK_COUNT, Nat.mod_lt _ (by decide)⟩

/-- One track of the per-id table (ps_track_t of ps.h, with the fields
this source file uses: the seen flag, the sink handle, the resolved
format's category, codec and header-skip, the first/last timestamps used
by length estimation, and the pending next-block flags). -/
structure ps_track_t where
  b_seen : Bool
  es : Option Nat
  i_cat : es_cat
  i_codec : Nat
  i_skip : Nat
  i_first_pts : Int
  i_last_pts : Int
  i_next_block_flags : Nat
deriving DecidableEq, Repr

/-- ps_track_init (ps.h, not among the source files).  Modelled from the
spec: tracks are "allocated unseen at engine start", with no sink, unknown
format and unset (negative-sentinel) timestamps. -/
def ps_track_init_tk : ps_track_t :=
  { b_seen := false, es := none, i_cat := UNKNOWN_ES, i_codec := 0,
    i_skip := 0, i_first_pts := -1, i_last_pts := -1, i_next_block_flags := 0 }

/-- The engine state demux_sys_t.  The PSM is kept as its version counter
(`psm_version`, sentinel 0xFFFF for "never received"); its id→descriptor
entries are consulted only by external ps.h helpers, which are modelled
from the spec and parameterized below, so they never appear here. -/
structure demux_sys_t where
  psm_version : Nat
  tk : Fin PS_TK_COUNT → ps_track_t
  i_scr : Int
  i_last_scr : Int
  i_mux_rate : Int
  i_length : Int
  i_time_track : Int
  i_current_pts : Int
  i_aob_mlp_count : Int
  b_lost_sync : Bool
  b_have_pack : Bool
  b_bad_scr : Bool
  b_seekable : Bool
  b_cdxa : Bool

/-- The engine state right after OpenCommon's initialization. -/
def initState (b_seekable b_cdxa : Bool) : demux_sys_t :=
  { psm_version := 0xFFFF, tk := fun _ => ps_track_init_tk,
    i_scr := -1, i_last_scr := -1, i_mux_rate := 0, i_length := -1,
    i_time_track := -1, i_current_pts := 0, i_aob_mlp_count := 0,
    b_lost_sync := false, b_have_pack := false, b_bad_scr := false,
    b_seekable := b_seekable, b_cdxa := b_cdxa }

/-- Point update of the track table (writing through the `tk` pointer of
the source). -/
def updTk (tk : Fin PS_TK_COUNT → ps_track_t) (i : Fin PS_TK_COUNT)
    (t : ps_track_t) : Fin PS_TK_COUNT → ps_track_t :=
  fun j => if j = i then t else tk j

/-- Indexing the track table by a C int index (used with
`i_time_track ≥ 0`, which selection always keeps inside the table). -/
def tkAt (s : demux_sys_t) (i : Int) : ps_track_t :=
  s.tk ⟨i.toNat % PS_TK_COUNT, Nat.mod_lt _ (by decide)⟩

/-- Downstream es_out effects emitted by one engine step, in call order.
`pcrFromScr` is the ES_OUT_SET_PCR issued on the SCR application path
(the pending-SCR push), `pcrForced` the ES_OUT_SET_PCR issued by the A/V
bootstrap force-push, `esAdd` a sink creation and `esSend` a buffer
forwarded to a track's sink. -/
inductive DemuxEvent where
  | pcrFromScr (v : Int)
  | pcrForced (v : Int)
  | esAdd (slot : Fin PS_TK_COUNT) (h : Nat)
  | esSend (slot : Fin PS_TK_COUNT)
deriving DecidableEq, Repr

/-- NotifyDiscontinuity: every track that is seen, has a sink, and whose
selection query succeeds with "selected" (the external
`es_out_Control(out, ES_OUT_GET_ES_STATE, ...)`, supplied as the
`selected` predicate) gets the discontinuity bit OR-ed into its pending
next-block flags.  The loop body touches only `tk[i]`, so it is a
pointwise map of the table. -/
def NotifyDiscontinuity (tk : Fin PS_TK_COUNT → ps_track_t)
    (selected : Fin PS_TK_COUNT → Bool) : Fin PS_TK_COUNT → ps_track_t :=
  fun i =>
    if (tk i).b_seen = true ∧ (tk i).es ≠ none ∧ selected i = true then
      { tk i with i_next_block_flags :=
          (tk i).i_next_block_flags ||| BLOCK_FLAG_DISCONTINUITY }
    else tk i

/-- Outcomes of the external calls made by one Demux2 probe invocation:
the resynchronizer result, whether ps_pkt_read returned a packet, the
id computed by the external ps_pkt_id (ps.h), and the result of the
external PES parse (pes.h): success and the extracted PTS. -/
structure Demux2Env where
  i_ret : Int
  has_pkt : Bool
  i_id : Nat
  pes_ok : Bool
  pes_pts : Int
deriving DecidableEq, Repr

/-- Demux2: one probing step of length estimation (b_end selects tail
mode).  Returns the new state and the VLC_DEMUXER_* code. -/
def Demux2 (s : demux_sys_t) (b_end : Bool) (e : Demux2Env) :
    demux_sys_t × Int :=
  if e.i_ret < 0 then (s, VLC_DEMUXER_EOF)
  else if e.i_ret = 0 then
    ({ s with b_lost_sync := true }, VLC_DEMUXER_SUCCESS)
  else
    let s1 := { s with b_lost_sync := false }
    if e.has_pkt = false then (s1, VLC_DEMUXER_EOF)
    else
      let s2 :=
        if 0xC0 ≤ e.i_id then
          let slot := PS_ID_TO_TK e.i_id
          let tk := s1.tk slot
          if e.pes_ok = true ∧ VLC_TS_INVALID < e.pes_pts then
            if b_end = true ∧ tk.i_last_pts < e.pes_pts then
              { s1 with tk := updTk s1.tk slot { tk with i_last_pts := e.pes_pts } }
            else if tk.i_first_pts = -1 then
              { s1 with tk := updTk s1.tk slot { tk with i_first_pts := e.pes_pts } }
            else s1
          else s1
        else s1
      let s3 :=
        if e.i_id = PS_STREAM_ID_PACK_HEADER then { s2 with b_have_pack := true }
        else s2
      (s3, VLC_DEMUXER_SUCCESS)

/-- The probe loops of FindLength: `while (i < limit && Demux2(...) > 0)
i++`.  The environment list holds one entry per attempted call; the loop
also stops when the stream supplies no further call outcomes. -/
def runProbes (s : demux_sys_t) (b_end : Bool) :
    Nat → List Demux2Env → demux_sys_t
  | _, [] => s
  | 0, _ => s
  | limit+1, e :: es =>
    let r := Demux2 s b_end e
    if 0 < r.2 then runProbes r.1 b_end limit es else r.1

/-- One iteration of FindLength's longest-track selection loop. -/
def selectStep (s : demux_sys_t) (i : Fin PS_TK_COUNT) : demux_sys_t :=
  let tk := s.tk i
  if 0 < tk.i_last_pts ∧ tk.i_first_pts < tk.i_last_pts then
    if s.i_length < tk.i_last_pts - tk.i_first_pts then
      { s with i_length := tk.i_last_pts - tk.i_first_pts,
               i_time_track := ((i : Nat) : Int) }
    else s
  else s

/-- FindLength's final loop: pick the track with the largest
last-minus-first span as the time source; its span becomes the length. -/
def selectLongest (s : demux_sys_t) : demux_sys_t :=
  (List.finRange PS_TK_COUNT).foldl selectStep s

/-- Outcomes of the external calls made by one FindLength invocation: the
ps-trust-timestamps option, the probe-call outcomes of the two Demux2
loops, the success of the seek towards the end and of the restoring seek,
and the saved byte position (vlc_stream_Tell). -/
structure FLenEnv where
  trust : Bool
  probes1 : List Demux2Env
  seek_end_ok : Bool
  probes2 : List Demux2Env
  seek_back_ok : Bool
  i_current_pos : Int

/-- FindLength: lazy length estimation.  Returns the new state and the
boolean the C function returns. -/
def FindLength (s : demux_sys_t) (e : FLenEnv) : demux_sys_t × Bool :=
  if e.trust = false then (s, true)
  else if s.i_length = -1 then
    let s1 := { s with i_length := 0 }
    let s2 := runProbes s1 false 40 e.probes1
    if e.seek_end_ok = true then
      let s3 := runProbes s2 true 400 e.probes2
      if 0 ≤ e.i_current_pos ∧ e.seek_back_ok = false then (s3, false)
      else (selectLongest s3, true)
    else (s2, false)
  else (selectLongest s, true)

/-- Outcomes of the external calls one Demux invocation can make: the
resynchronizer result; the FindLength call outcomes; the packet returned
by ps_pkt_read (`none` = NULL, otherwise its byte buffer); the result of
the external ps_pkt_parse_pack (success, SCR, mux rate); the result of the
external ps_pkt_parse_system together with the track marks it applies
(modelled from the spec: parsing a system header records the declared
sub-streams in the track table — seen flag and format — and never touches
a sink handle); the PSM version after the external ps_psm_fill (modelled
from the spec: a map packet merges descriptor entries and bumps the
version, and "never causes an already-resolved track to lose its format",
so it touches no track here); the id computed by the external ps_pkt_id;
the result of the external ps_track_fill (success plus the resolved
category, codec and header skip); the handles the external es_out_Add
returns (the sink factory's add always yields a handle); the external PES
parse result; and the per-track selection state answered by
es_out_Control(ES_OUT_GET_ES_STATE) (query success and selected,
conjoined). -/
structure DemuxEnv where
  i_ret : Int
  flen : FLenEnv
  pkt : Option (List Nat)
  pack_ok : Bool
  pack_scr : Int
  pack_mux : Int
  sys_ok : Bool
  sys_upd : Fin PS_TK_COUNT → Option (es_cat × Nat)
  psm_new_version : Nat
  i_id : Nat
  fill_ok : Bool
  fill_cat : es_cat
  fill_codec : Nat
  fill_skip : Nat
  es_add_handle : Fin PS_TK_COUNT → Nat
  pes_ok : Bool
  pes_pts : Int
  selected : Fin PS_TK_COUNT → Bool

/-- The AOB MLP id heuristic at the head of the elementary dispatch:
resolve the effective id and the new bounded counter. -/
def aobResolve (cnt : Int) (i_id : Nat) : Nat × Int :=
  if i_id = 0xa001 ∧ cnt < 500 then (i_id, cnt + 1)
  else if i_id = 0xbda1 ∧ 0 < cnt then (0xa001, cnt - 1)
  else (i_id, cnt)

/-- First-sight handling of the elementary dispatch: when the track is not
yet seen, attempt ps_track_fill; on success install the resolved format,
create the sink and flag the track as newly created; mark seen either way.
Returns the updated track, b_new, and the emitted sink-creation events. -/
def elemFirstSight (tk : ps_track_t) (env : DemuxEnv)
    (slot : Fin PS_TK_COUNT) : ps_track_t × Bool × List DemuxEvent :=
  if tk.b_seen = false then
    if env.fill_ok = true then
      ({ tk with i_cat := env.fill_cat, i_codec := env.fill_codec,
                 i_skip := env.fill_skip,
                 es := some (env.es_add_handle slot), b_seen := true },
       true, [.esAdd slot (env.es_add_handle slot)])
    else ({ tk with b_seen := true }, false, [])
  else (tk, false, [])

/-- The WinSubMux workaround: an OGT/CVD subtitle track invalidates the
current and last SCR for this cycle. -/
def elemWinSubMux (s : demux_sys_t) (tk : ps_track_t) : demux_sys_t :=
  if tk.b_seen = true ∧ (tk.i_codec = VLC_CODEC_OGT ∨ tk.i_codec = VLC_CODEC_CVD) then
    { s with i_scr := -1, i_last_scr := -1 }
  else s

/-- The pending-SCR application of the elementary dispatch: with a pending
non-negative SCR and SCR not disabled, either permanently disable SCR
(audio/video track whose known first timestamp exceeds the SCR by more
than one clock second) or push the SCR to the downstream clock. -/
def elemScrCheck (s : demux_sys_t) (tk : ps_track_t) :
    demux_sys_t × List DemuxEvent :=
  if 0 ≤ s.i_scr ∧ s.b_bad_scr = false then
    if (tk.i_cat = AUDIO_ES ∨ tk.i_cat = VIDEO_ES) ∧
        VLC_TS_INVALID < tk.i_first_pts ∧
        CLOCK_FREQ < tk.i_first_pts - s.i_scr then
      ({ s with b_bad_scr := true }, [])
    else (s, [.pcrFromScr (VLC_TS_0 + s.i_scr)])
  else (s, [])

/-- The PES tail of the elementary dispatch: on a parsable PES with a sink,
run the SCR-in-advance check, the A/V bootstrap force-push, the teletext
timestamp synthesis, the running-maximum update, the discontinuity-flag
stamping and the forward to the sink; otherwise release the buffer.  Both
paths consume the pending SCR. -/
def elemPes (s : demux_sys_t) (tk : ps_track_t) (slot : Fin PS_TK_COUNT)
    (b_new : Bool) (env : DemuxEnv) : demux_sys_t × List DemuxEvent :=
  if tk.b_seen = true ∧ tk.es ≠ none ∧ env.pes_ok = true then
    let pts0 := env.pes_pts
    let s1 :=
      if (tk.i_cat = AUDIO_ES ∨ tk.i_cat = VIDEO_ES) ∧ s.b_bad_scr = false ∧
          0 < s.i_scr ∧ 0 < pts0 ∧ pts0 + CLOCK_FREQ / 4 < s.i_scr then
        { s with b_bad_scr := true }
      else s
    let ev3 : List DemuxEvent :=
      if ((b_new = false ∧ s1.b_have_pack = false) ∨ s1.b_bad_scr = true) ∧
          tk.i_cat = AUDIO_ES ∧ VLC_TS_INVALID < pts0 then
        [.pcrForced pts0]
      else []
    let pts1 :=
      if tk.i_codec = VLC_CODEC_TELETEXT ∧ pts0 ≤ VLC_TS_INVALID ∧
          0 ≤ s1.i_last_scr then
        VLC_TS_0 + s1.i_last_scr + 40000
      else pts0
    let s2 :=
      if s1.i_current_pts < pts1 then { s1 with i_current_pts := pts1 } else s1
    let tk1 :=
      if tk.i_next_block_flags ≠ 0 then { tk with i_next_block_flags := 0 }
      else tk
    ({ s2 with tk := updTk s2.tk slot tk1, i_scr := -1 },
     ev3 ++ [.esSend slot])
  else
    ({ s with tk := updTk s.tk slot tk, i_scr := -1 }, [])

/-- The elementary/private payload dispatch of Demux (the
PS_STREAM_ID_PRIVATE_STREAM1 / 0xC0..0xEF case). -/
def elemDispatch (s : demux_sys_t) (env : DemuxEnv) :
    demux_sys_t × List DemuxEvent × Int :=
  let r0 := aobResolve s.i_aob_mlp_count env.i_id
  let s0 := { s with i_aob_mlp_count := r0.2 }
  let slot := PS_ID_TO_TK r0.1
  let r1 := elemFirstSight (s0.tk slot) env slot
  let tk := r1.1
  let b_new := r1.2.1
  let ev1 := r1.2.2
  let s1 := elemWinSubMux s0 tk
  let r2 := elemScrCheck s1 tk
  let r3 := elemPes r2.1 tk slot b_new env
  (r3.1, ev1 ++ r2.2 ++ r3.2, VLC_DEMUXER_SUCCESS)

/-- The track table as updated by the external ps_pkt_parse_system when it
succeeds: its marks `sys_upd` set seen flags and formats of the declared
sub-streams and never touch a sink handle. -/
def sysParsedTk (s : demux_sys_t) (env : DemuxEnv) :
    Fin PS_TK_COUNT → ps_track_t :=
  fun i =>
    match env.sys_upd i with
    | some (cat, codec) =>
      { s.tk i with b_seen := true, i_cat := cat, i_codec := codec }
    | none => s.tk i

/-- The sink-creation test of the system-header loop: track seen, without
a sink, of known category, after the parse. -/
def sysAddHere (s : demux_sys_t) (env : DemuxEnv) (i : Fin PS_TK_COUNT) : Prop :=
  (sysParsedTk s env i).b_seen = true ∧ (sysParsedTk s env i).es = none ∧
  (sysParsedTk s env i).i_cat ≠ UNKNOWN_ES

instance sysAddHere.dec (s : demux_sys_t) (env : DemuxEnv)
    (i : Fin PS_TK_COUNT) : Decidable (sysAddHere s env i) := by
  unfold sysAddHere; infer_instance

/-- The system-header dispatch: after a successful external
ps_pkt_parse_system, create a sink for every track seen, sinkless, and of
known category.  The creation loop's iterations touch only their own
slot, so the table update is pointwise and the events list holds one
esAdd per qualifying slot in slot order. -/
def sysDispatch (s : demux_sys_t) (env : DemuxEnv) :
    demux_sys_t × List DemuxEvent × Int :=
  if env.sys_ok = true then
    ({ s with tk := fun i =>
        if sysAddHere s env i then
          { sysParsedTk s env i with es := some (env.es_add_handle i) }
        else sysParsedTk s env i },
     ((List.finRange PS_TK_COUNT).filter (fun i => decide (sysAddHere s env i))).map
       (fun i => .esAdd i (env.es_add_handle i)),
     VLC_DEMUXER_SUCCESS)
  else (s, [], VLC_DEMUXER_SUCCESS)

/-- The classify-and-dispatch tail of Demux, entered once a packet of at
least 4 bytes has been read: switch on the declared stream id. -/
def demuxPacket (s : demux_sys_t) (env : DemuxEnv) (buf : List Nat) :
    demux_sys_t × List DemuxEvent × Int :=
  let sid := buf.getD 3 0
  if sid = PS_STREAM_ID_END_STREAM then (s, [], VLC_DEMUXER_SUCCESS)
  else if sid = PS_STREAM_ID_PACK_HEADER then
    (if env.pack_ok = true then
      { s with i_scr := env.pack_scr, i_last_scr := env.pack_scr,
               b_have_pack := true,
               i_mux_rate := if 0 < env.pack_mux then env.pack_mux
                             else s.i_mux_rate }
     else s, [], VLC_DEMUXER_SUCCESS)
  else if sid = PS_STREAM_ID_SYSTEM_HEADER then sysDispatch s env
  else if sid = PS_STREAM_ID_MAP then
    ({ s with psm_version := env.psm_new_version }, [], VLC_DEMUXER_SUCCESS)
  else if sid = PS_STREAM_ID_PRIVATE_STREAM1 ∨ (0xC0 ≤ sid ∧ sid ≤ 0xEF) then
    elemDispatch s env
  else (s, [], VLC_DEMUXER_SUCCESS)

/-- Demux: one engine step.  Returns the new state, the downstream es_out
effects in order, and the VLC_DEMUXER_* code.  The final
demux_UpdateTitleFromStream is a pass-through to the external source and
touches no engine state. -/
def Demux (s : demux_sys_t) (env : DemuxEnv) :
    demux_sys_t × List DemuxEvent × Int :=
  if env.i_ret < 0 then (s, [], VLC_DEMUXER_EOF)
  else if env.i_ret = 0 then
    let tk1 := if s.b_lost_sync = false then NotifyDiscontinuity s.tk env.selected
               else s.tk
    ({ s with tk := tk1, b_lost_sync := true }, [], VLC_DEMUXER_SUCCESS)
  else
    let s1 := { s with b_lost_sync := false }
    if s1.i_length < 0 ∧ s1.b_seekable = true then
      let r := FindLength s1 env.flen
      if r.2 = false then (r.1, [], VLC_DEMUXER_EGENERIC)
      else
        match env.pkt with
        | none => (r.1, [], VLC_DEMUXER_EOF)
        | some buf =>
          if buf.length < 4 then (r.1, [], VLC_DEMUXER_EGENERIC)
          else demuxPacket r.1 env buf
    else
      match env.pkt with
      | none => (s1, [], VLC_DEMUXER_EOF)
      | some buf =>
        if buf.length < 4 then (s1, [], VLC_DEMUXER_EGENERIC)
        else demuxPacket s1 env buf

/-- Outcomes of the external calls a Control seek/time operation makes:
the seek result and the per-track selection state (as in DemuxEnv). -/
structure ControlEnv where
  seek_ok : Bool
  selected : Fin PS_TK_COUNT → Bool

/-- The DEMUX_SET_POSITION case of Control.  Returns the new state, the
return code, whether a seek was attempted, and whether the discontinuity
notification ran.  The byte target `(int64_t)(i64 * f)` involves only the
external stream, so the seek is represented by its outcome. -/
def Control_SET_POSITION (s : demux_sys_t) (e : ControlEnv) :
    demux_sys_t × Int × Bool × Bool :=
  let s1 := { s with i_current_pts := 0, i_last_scr := -1 }
  if e.seek_ok = true then
    ({ s1 with tk := NotifyDiscontinuity s1.tk e.selected },
     VLC_SUCCESS, true, true)
  else (s1, VLC_EGENERIC, true, false)

/-- The DEMUX_SET_TIME case of Control for target `i64`.  Returns the new
state, the return code, whether a seek was attempted, and whether the
discontinuity notification ran.  The float byte-position scaling
`i_pos *= (float)i64 / (float)i_now` only feeds the external seek, so the
seek is represented by its outcome. -/
def Control_SET_TIME (s : demux_sys_t) (i64 : Int) (e : ControlEnv) :
    demux_sys_t × Int × Bool × Bool :=
  if 0 ≤ s.i_time_track ∧ 0 < s.i_current_pts then
    let i_now := s.i_current_pts - (tkAt s s.i_time_track).i_first_pts
    if i_now = 0 then
      (s, if i64 ≠ 0 then VLC_EGENERIC else VLC_SUCCESS, false, false)
    else
      let s1 := { s with i_current_pts := 0, i_last_scr := -1 }
      if e.seek_ok = true then
        ({ s1 with tk := NotifyDiscontinuity s1.tk e.selected },
         VLC_SUCCESS, true, true)
      else (s1, VLC_EGENERIC, true, false)
  else (s, VLC_EGENERIC, false, false)

/-- A run of the engine: fold Demux over the per-call external outcomes,
collecting the emitted downstream effects in order. -/
def DemuxTrace (s : demux_sys_t) : List DemuxEnv → demux_sys_t × List DemuxEvent
  | [] => (s, [])
  | env :: rest =>
    let r := Demux s env
    let r2 := DemuxTrace r.1 rest
    (r2.1, r.2.1 ++ r2.2)

/-- What a FindLength call can do to the engine state: it may update the
tracks' first/last timestamps, the lost-sync and pack-header flags and the
length/time-track estimate, and nothing else.  This relation lists the
untouched fields. -/
def ProbePreserved (s s' : demux_sys_t) : Prop :=
  s'.psm_version = s.psm_version ∧ s'.i_scr = s.i_scr ∧
  s'.i_last_scr = s.i_last_scr ∧ s'.i_mux_rate = s.i_mux_rate ∧
  s'.i_current_pts = s.i_current_pts ∧
  s'.i_aob_mlp_count = s.i_aob_mlp_count ∧
  s'.b_bad_scr = s.b_bad_scr ∧ s'.b_seekable = s.b_seekable ∧
  s'.b_cdxa = s.b_cdxa ∧
  ∀ i, (s'.tk i).b_seen = (s.tk i).b_seen ∧ (s'.tk i).es = (s.tk i).es ∧
    (s'.tk i).i_cat = (s.tk i).i_cat ∧ (s'.tk i).i_codec = (s.tk i).i_codec ∧
    (s'.tk i).i_skip = (s.tk i).i_skip ∧
    (s'.tk i).i_next_block_flags = (s.tk i).i_next_block_flags

/-- Recognizer for a sink-creation event of the given track slot. -/
def isAddFor (slot : Fin PS_TK_COUNT) : DemuxEvent → Bool
  | .esAdd j _ => decide (j = slot)
  | _ => false

/-- Number of sink creations for the given track slot in an effect list. -/
def countAdds (slot : Fin PS_TK_COUNT) (evs : List DemuxEvent) : Nat :=
  evs.countP (isAddFor slot)

/-- The track slot the elementary dispatch addresses (after the AOB MLP
id heuristic). -/
def elemSlot (s : demux_sys_t) (env : DemuxEnv) : Fin PS_TK_COUNT :=
  PS_ID_TO_TK (aobResolve s.i_aob_mlp_count env.i_id).1

/-- The addressed track as the elementary dispatch sees it after
first-sight handling. -/
def elemTrack (s : demux_sys_t) (env : DemuxEnv) : ps_track_t :=
  (elemFirstSight (s.tk (elemSlot s env)) env (elemSlot s env)).1

/-- Whether the elementary dispatch created the addressed track's sink on
this call (the b_new flag). -/
def elemBNew (s : demux_sys_t) (env : DemuxEnv) : Bool :=
  (elemFirstSight (s.tk (elemSlot s env)) env (elemSlot s env)).2.1

/-- FindLength's qualification test for a track: a positive last timestamp
above the first timestamp. -/
def trackQual (t : ps_track_t) : Prop :=
  0 < t.i_last_pts ∧ t.i_first_pts < t.i_last_pts

instance trackQual.dec (t : ps_track_t) : Decidable (trackQual t) := by
  unfold trackQual; infer_instance

/-- A track's last-minus-first timestamp span. -/
def trackSpan (t : ps_track_t) : Int := t.i_last_pts - t.i_first_pts

/-- Example byte stream: a valid video header at the current position. -/
def c4bytes : List Nat := [0, 0, 1, 0xC0]

/-- Example byte stream: a valid pack header at the current position. -/
def c4wBytes : List Nat := [0, 0, 1, 0xBA]

/-- Example byte stream for the packet reader: a zero-length system header
immediately followed by a start code at offset 4, and another at offset
10. -/
def c5bytes : List Nat := [0, 0, 1, 0xBB, 0, 0, 1, 0xC0, 0xFF, 0xFF, 0, 0, 1, 0xC0]

/-- Example byte stream for the packet reader: a malformed header, no
start code before offset 10, a start code at offset 10 with a byte of
lookahead behind it. -/
def c5wBytes : List Nat := [0, 0, 1, 0xBB, 2, 2, 2, 2, 2, 2, 0, 0, 1, 0xC0, 9]

/-- A probe-call outcome that parses nothing. -/
def d2Env0 : Demux2Env :=
  { i_ret := 1, has_pkt := true, i_id := 0, pes_ok := false, pes_pts := 0 }

/-- A probe-call outcome whose resynchronization reports NO_SYNC. -/
def noSyncProbe : Demux2Env :=
  { i_ret := 0, has_pkt := false, i_id := 0, pes_ok := false, pes_pts := 0 }

/-- A probe-call outcome delivering an audio PES with timestamp 100. -/
def audioProbe : Demux2Env :=
  { i_ret := 1, has_pkt := true, i_id := 0xC0, pes_ok := true, pes_pts := 100 }

/-- A FindLength environment whose seeks succeed and whose probe loops see
no packets. -/
def flen0 : FLenEnv :=
  { trust := true, probes1 := [], seek_end_ok := true, probes2 := [],
    seek_back_ok := true, i_current_pos := 0 }

/-- A Demux call environment: synchronized, no packet, every external
parse failing, all tracks selected, sink factory handing out handle 7. -/
def env0 : DemuxEnv :=
  { i_ret := 1, flen := flen0, pkt := none, pack_ok := false, pack_scr := 0,
    pack_mux := 0, sys_ok := false, sys_upd := fun _ => none,
    psm_new_version := 0, i_id := 0, fill_ok := false,
    fill_cat := UNKNOWN_ES, fill_codec := 0, fill_skip := 0,
    es_add_handle := fun _ => 7, pes_ok := false, pes_pts := 0,
    selected := fun _ => true }

/-- Fresh engine state over a non-seekable source. -/
def sInit : demux_sys_t := initState false false

/-- A seen audio track with a sink and the given first timestamp. -/
def audioTrack (first : Int) : ps_track_t :=
  { b_seen := true, es := some 4, i_cat := AUDIO_ES, i_codec := 0,
    i_skip := 0, i_first_pts := first, i_last_pts := -1,
    i_next_block_flags := 0 }

/-- Engine state with a fresh track table (used with a first-sight audio
packet). -/
def c1sA : demux_sys_t := sInit

/-- Call environment: audio id 0xC0 resolving successfully on first
sight, PES parse succeeding with timestamp 5. -/
def c1envA : DemuxEnv :=
  { env0 with i_id := 0xC0, fill_ok := true, fill_cat := AUDIO_ES,
              pes_ok := true, pes_pts := 5 }

/-- Engine state with a seen video track for id 0xE0. -/
def c1sV : demux_sys_t :=
  { sInit with
      tk := updTk sInit.tk (PS_ID_TO_TK 0xE0)
        ({ audioTrack (-1) with i_cat := VIDEO_ES }) }

/-- Call environment: video id 0xE0, PES parse succeeding with
timestamp 5. -/
def c1envV : DemuxEnv :=
  { env0 with i_id := 0xE0, pes_ok := true, pes_pts := 5 }

/-- Engine state with a seen audio track for id 0xC0 (not freshly
created, no pack header seen). -/
def c1sW : demux_sys_t :=
  { sInit with tk := updTk sInit.tk (PS_ID_TO_TK 0xC0) (audioTrack (-1)) }

/-- Call environment: audio id 0xC0, PES parse succeeding with
timestamp 9. -/
def c1envW : DemuxEnv :=
  { env0 with i_id := 0xC0, pes_ok := true, pes_pts := 9 }

/-- Engine state with pending SCR 0 and a seen audio track whose first
timestamp 1000001 exceeds the SCR by more than one clock second. -/
def c2sW : demux_sys_t :=
  { sInit with i_scr := 0,
               tk := updTk sInit.tk (PS_ID_TO_TK 0xC0) (audioTrack 1000001) }

/-- Call environment addressing the audio id 0xC0. -/
def c2envW : DemuxEnv := { env0 with i_id := 0xC0 }

/-- Engine state with the SCR-disabled flag already set. -/
def c2sP : demux_sys_t := { sInit with b_bad_scr := true }

/-- Seekable engine state, length unknown, with a seen, selected,
sink-bearing audio track in slot 0. -/
def c3s : demux_sys_t :=
  { initState true false with
      tk := updTk (initState true false).tk (PS_ID_TO_TK 0) (audioTrack (-1)) }

/-- Call environment whose length-estimation probe hits NO_SYNC (and
whose end seek then fails, ending the call). -/
def c3env : DemuxEnv :=
  { env0 with flen := { flen0 with probes1 := [noSyncProbe],
                                   seek_end_ok := false } }

/-- Call environment whose own resynchronization reports NO_SYNC. -/
def c3envW : DemuxEnv := { env0 with i_ret := 0 }

/-- Track with timestamps 1000..5000 (span 4000). -/
def trackA : ps_track_t :=
  { audioTrack 1000 with i_last_pts := 5000 }

/-- Track with timestamps 2000..3000 (span 1000). -/
def trackB : ps_track_t :=
  { audioTrack 2000 with i_last_pts := 3000 }

/-- Engine state entering the selection loop (length initialized to 0)
with exactly the two tracks of the spec's length-estimation example. -/
def c6s : demux_sys_t :=
  { sInit with
      i_length := 0,
      tk := fun j =>
        if j = PS_ID_TO_TK 0 then trackA
        else if j = PS_ID_TO_TK 1 then trackB
        else ps_track_init_tk }

/-- Control environment: seek succeeds, every track selected. -/
def ctl0 : ControlEnv := { seek_ok := true, selected := fun _ => true }

/-- Engine state whose time-source track's first timestamp equals the
current presentation timestamp (elapsed baseline zero). -/
def c8s : demux_sys_t :=
  { sInit with i_time_track := 0, i_current_pts := 7,
               tk := updTk sInit.tk (PS_ID_TO_TK 0) (audioTrack 7) }

/-- Engine state with a time-source track and a nonzero elapsed
baseline. -/
def c7sW : demux_sys_t :=
  { sInit with i_time_track := 0, i_current_pts := 9,
               tk := updTk sInit.tk (PS_ID_TO_TK 0) (audioTrack 7) }

/-- Seekable fresh engine state (length unknown). -/
def c10s : demux_sys_t := initState true false

/-- Call environment whose length-estimation probe records an audio
first timestamp and whose packet read returns a 2-byte packet. -/
def c10env : DemuxEnv :=
  { env0 with pkt := some [0, 0],
              flen := { flen0 with probes1 := [audioProbe] } }

/-- Call environment whose packet read returns a 2-byte packet. -/
def c10envW : DemuxEnv := { env0 with pkt := some [0, 0] }

/-- The track-table invariant of the engine: a track holding a sink
handle has been seen.  It holds at engine start (no sinks) and is
preserved by every Demux step. -/
def TracksInv (s : demux_sys_t) : Prop :=
  ∀ j, (s.tk j).es ≠ none → (s.tk j).b_seen = true

lemma resynchLoop_pack_byte (bs : List Nat) (cdxa : Bool) :
    ∀ fuel i_peek i_skip sk,
      resynchLoop bs cdxa true fuel i_peek i_skip = (1, sk) →
      bs.getD (sk+3) 0 = PS_STREAM_ID_PACK_HEADER := by
  intro fuel
  induction fuel with
  | zero =>
    intro i_peek i_skip sk h
    simp only [resynchLoop, Prod.mk.injEq] at h
    exact absurd h.1 (by norm_num)
  | succ n ih =>
    intro i_peek i_skip sk h
    simp only [resynchLoop] at h
    split_ifs at h with h1 h2 h3
    · simp only [Prod.mk.injEq] at h
      exact absurd h.1 (by norm_num)
    · exact ih _ _ _ h
    · obtain ⟨hv, hp⟩ := h3
      rcases hp with hfalse | hb
      · simp at hfalse
      · simp only [Prod.mk.injEq] at h
        rw [← h.2]
        exact hb
    · exact ih _ _ _ h

/-- C4 counterexample: with the must-be-pack flag set, ps_pkt_resynch
still returns SYNC_OK, consuming nothing, on a stream positioned directly
at a structurally valid header whose stream id 0xC0 is not the pack-header
id: the fast path skips the must-be-pack filter. -/
theorem ps_resynch_c4_counterexample :
    ps_pkt_resynch c4bytes false true = (1, 0) ∧ validHeaderAt c4bytes 0 ∧
    c4bytes.getD 3 0 ≠ PS_STREAM_ID_PACK_HEADER := by decide

/-- C4 amended: in must-be-pack mode, whenever ps_pkt_resynch returns
SYNC_OK it either consumed nothing (the stream was already positioned at a
valid header, accepted by the fast path regardless of its id) or it is
positioned at a pack header: the scan never stops at a non-pack header, so
any such header reached by scanning is passed over. -/
theorem ps_resynch_c4_amended (bs : List Nat) (cdxa : Bool) (sk : Nat)
    (h : ps_pkt_resynch bs cdxa true = (1, sk)) :
    sk = 0 ∨ bs.getD (sk+3) 0 = PS_STREAM_ID_PACK_HEADER := by
  unfold ps_pkt_resynch at h
  split_ifs at h with h1 h2 h3
  · simp only [Prod.mk.injEq] at h
    exact absurd h.1 (by norm_num)
  · simp only [Prod.mk.injEq] at h
    exact Or.inl h.2.symm
  · simp only [Prod.mk.injEq] at h
    exact absurd h.1 (by norm_num)
  · exact Or.inr (resynchLoop_pack_byte bs cdxa _ _ _ _ h)

/-- C4 witness: on a stream holding garbage, then a valid video header,
then a pack header, must-be-pack resynchronization skips to the pack
header (offset 5) — the non-pack header at offset 1 is passed over. -/
theorem ps_resynch_c4_witness :
    (5 : Nat) = 0 ∨
    (List.getD [0xFF, 0, 0, 1, 0xC0, 0, 0, 1, 0xBA] (5+3) 0) =
      PS_STREAM_ID_PACK_HEADER :=
  ps_resynch_c4_amended [0xFF, 0, 0, 1, 0xC0, 0, 0, 1, 0xBA] false 5 (by decide)

lemma scanInner_finds (bs : List Nat) :
    ∀ fuel i_size bound o₀, i_size ≤ o₀ → o₀ ≤ bound →
      validHeaderAt bs o₀ →
      (∀ o, i_size ≤ o → o < o₀ → ¬ validHeaderAt bs o) →
      o₀ + 1 ≤ fuel + i_size →
      scanInner bs fuel i_size bound = some o₀ := by
  intro fuel
  induction fuel with
  | zero => intro i_size bound o₀ h1 h2 h3 h4 h5; omega
  | succ n ih =>
    intro i_size bound o₀ h1 h2 h3 h4 h5
    simp only [scanInner]
    split_ifs with hb hv
    · omega
    · have : i_size = o₀ := by
        rcases eq_or_lt_of_le h1 with h | h
        · exact h
        · exact absurd hv (h4 _ le_rfl h)
      rw [this]
    · have hne : i_size ≠ o₀ := fun he => hv (he ▸ h3)
      exact ih (i_size+1) bound o₀ (by omega) h2 h3
        (fun o ho1 ho2 => h4 o (by omega) ho2) (by omega)

lemma scanInner_none (bs : List Nat) :
    ∀ fuel i_size bound,
      (∀ o, i_size ≤ o → o ≤ bound → ¬ validHeaderAt bs o) →
      scanInner bs fuel i_size bound = none := by
  intro fuel
  induction fuel with
  | zero => intro i_size bound h; simp [scanInner]
  | succ n ih =>
    intro i_size bound h
    simp only [scanInner]
    split_ifs with hb hv
    · rfl
    · exact absurd hv (h _ le_rfl (by omega))
    · exact ih (i_size+1) bound (fun o ho1 ho2 => h o (by omega) ho2)

lemma scanOuter_finds (bs : List Nat) :
    ∀ fuel i_size o₀, i_size ≤ o₀ → validHeaderAt bs o₀ →
      o₀ + 5 ≤ bs.length →
      (∀ o, i_size ≤ o → o < o₀ → ¬ validHeaderAt bs o) →
      bs.length ≤ fuel + i_size →
      scanOuter bs fuel i_size = some o₀ := by
  intro fuel
  induction fuel with
  | zero => intro i_size o₀ h1 h2 h3 h4 h5; omega
  | succ n ih =>
    intro i_size o₀ h1 h2 h3 h4 h5
    have hP5 : i_size + 5 ≤ min (i_size + 1024) bs.length := by omega
    simp only [scanOuter]
    rw [if_neg (by omega)]
    by_cases hcase : o₀ ≤ min (i_size + 1024) bs.length - 4
    · rw [scanInner_finds bs _ _ _ _ h1 hcase h2 h4 (by omega)]
    · rw [scanInner_none bs _ _ _
        (fun o ho1 ho2 => h4 o ho1 (by omega))]
      exact ih _ _ (by omega) h2 h3
        (fun o ho1 ho2 => h4 o (by omega) ho2) (by omega)

lemma scanOuter_none (bs : List Nat) :
    ∀ fuel i_size,
      (∀ o, i_size ≤ o → o + 4 ≤ bs.length → ¬ validHeaderAt bs o) →
      scanOuter bs fuel i_size = none := by
  intro fuel
  induction fuel with
  | zero => intro i_size h; simp [scanOuter]
  | succ n ih =>
    intro i_size h
    simp only [scanOuter]
    split_ifs with hb
    · rfl
    · rw [scanInner_none bs _ _ _ (fun o ho1 ho2 => h o ho1 (by omega))]
      exact ih _ (fun o ho1 ho2 => h o (by omega) ho2)

/-- C5 counterexample: a zero-declared-length system header (declared
length 6, non-exempt id 0xBB) is followed by a valid start code at byte
offset 4, yet ps_pkt_read returns a 10-byte buffer — the offset of a later
start code — because its scan starts at offset 6; 10 is not the offset of
the next valid start code, which is 4 (offsets 1..3 hold none). -/
theorem ps_pkt_read_c5_counterexample :
    ps_pkt_read c5bytes 6 = some 10 ∧ validHeaderAt c5bytes 4 ∧
    ¬ validHeaderAt c5bytes 1 ∧ ¬ validHeaderAt c5bytes 2 ∧
    ¬ validHeaderAt c5bytes 3 ∧ (10 : Nat) ≠ 4 := by decide

/-- C5 amended: for a stream positioned at a non-exempt header of declared
length at most 6, ps_pkt_read returns a buffer whose length is the offset
of the next valid start code lying at offset at least 6 (start codes at
offsets below 6 are skipped), provided at least one byte of lookahead
follows that start code; and it returns end-of-data (NULL) when no valid
start code lies at any offset from 6 whose four bytes are within the
stream. -/
theorem ps_pkt_read_c5_amended (bs : List Nat) (psize : Int) (o₀ : Nat)
    (hlen : 4 ≤ bs.length) (hsize : psize ≤ 6)
    (hid : PS_STREAM_ID_PACK_HEADER < bs.getD 3 0) :
    ((6 ≤ o₀ ∧ validHeaderAt bs o₀ ∧ o₀ + 5 ≤ bs.length ∧
      (∀ o < o₀, 6 ≤ o → ¬ validHeaderAt bs o)) →
      ps_pkt_read bs psize = some o₀) ∧
    ((∀ o < bs.length, 6 ≤ o → o + 4 ≤ bs.length → ¬ validHeaderAt bs o) →
      ps_pkt_read bs psize = none) := by
  constructor
  · rintro ⟨h6, hv, hlook, hfirst⟩
    unfold ps_pkt_read
    rw [if_neg (by omega), if_pos ⟨hsize, hid⟩]
    exact scanOuter_finds bs _ _ _ h6 hv hlook
      (fun o ho1 ho2 => hfirst o ho2 ho1) (by omega)
  · intro hnone
    unfold ps_pkt_read
    rw [if_neg (by omega), if_pos ⟨hsize, hid⟩]
    exact scanOuter_none bs _ _
      (fun o ho1 ho2 => hnone o (by omega) ho1 ho2)

/-- C5 witness: on a 15-byte stream whose only start code from offset 6
on lies at offset 10, the reader returns a 10-byte buffer. -/
theorem ps_pkt_read_c5_witness : ps_pkt_read c5wBytes 6 = some 10 :=
  (ps_pkt_read_c5_amended c5wBytes 6 10 (by decide) (by decide)
    (by decide)).1 (by decide)

lemma selectStep_tk (s : demux_sys_t) (i : Fin PS_TK_COUNT) :
    (selectStep s i).tk = s.tk := by
  unfold selectStep
  dsimp only
  split_ifs <;> rfl

lemma selectStep_mono (s : demux_sys_t) (i : Fin PS_TK_COUNT) :
    s.i_length ≤ (selectStep s i).i_length := by
  unfold selectStep
  dsimp only
  split_ifs <;> first
  | (simp; done)
  | (simp; omega)

lemma selectStep_ub (s : demux_sys_t) (i : Fin PS_TK_COUNT)
    (h : trackQual (s.tk i)) :
    trackSpan (s.tk i) ≤ (selectStep s i).i_length := by
  unfold trackQual at h
  unfold selectStep trackSpan
  dsimp only
  rw [if_pos h]
  split_ifs with h2
  · simp
  · simpa using h2

lemma selectStep_prov (s : demux_sys_t) (i : Fin PS_TK_COUNT) :
    ((selectStep s i).i_length = s.i_length ∧
     (selectStep s i).i_time_track = s.i_time_track) ∨
    (trackQual (s.tk i) ∧ (selectStep s i).i_length = trackSpan (s.tk i) ∧
     (selectStep s i).i_time_track = ((i : Nat) : Int)) := by
  unfold selectStep trackSpan
  dsimp only
  split_ifs with h1 h2
  · exact Or.inr ⟨h1, rfl, rfl⟩
  · exact Or.inl ⟨rfl, rfl⟩
  · exact Or.inl ⟨rfl, rfl⟩

lemma selectFold_tk (l : List (Fin PS_TK_COUNT)) :
    ∀ s : demux_sys_t, (l.foldl selectStep s).tk = s.tk := by
  induction l with
  | nil => intro s; rfl
  | cons a t ih => intro s; rw [List.foldl_cons, ih, selectStep_tk]

lemma selectFold_mono (l : List (Fin PS_TK_COUNT)) :
    ∀ s : demux_sys_t, s.i_length ≤ (l.foldl selectStep s).i_length := by
  induction l with
  | nil => intro s; exact le_refl _
  | cons a t ih =>
    intro s
    rw [List.foldl_cons]
    exact le_trans (selectStep_mono s a) (ih _)

lemma selectFold_ub (l : List (Fin PS_TK_COUNT)) :
    ∀ s : demux_sys_t, ∀ j ∈ l, trackQual (s.tk j) →
      trackSpan (s.tk j) ≤ (l.foldl selectStep s).i_length := by
  induction l with
  | nil => intro s j hj; exact absurd hj (List.not_mem_nil j)
  | cons a t ih =>
    intro s j hj hq
    rw [List.foldl_cons]
    rcases List.mem_cons.mp hj with rfl | hjt
    · exact le_trans (selectStep_ub s j hq) (selectFold_mono t _)
    · have htk : (selectStep s a).tk = s.tk := selectStep_tk s a
      rw [← htk]
      exact ih (selectStep s a) j hjt (by rw [htk]; exact hq)

lemma selectFold_prov (l : List (Fin PS_TK_COUNT)) :
    ∀ s : demux_sys_t,
      ((l.foldl selectStep s).i_length = s.i_length ∧
       (l.foldl selectStep s).i_time_track = s.i_time_track) ∨
      (∃ j ∈ l, trackQual (s.tk j) ∧
        trackSpan (s.tk j) = (l.foldl selectStep s).i_length ∧
        (l.foldl selectStep s).i_time_track = ((j : Nat) : Int)) := by
  induction l with
  | nil => intro s; exact Or.inl ⟨rfl, rfl⟩
  | cons a t ih =>
    intro s
    rw [List.foldl_cons]
    have htk : (selectStep s a).tk = s.tk := selectStep_tk s a
    rcases ih (selectStep s a) with ⟨h1, h2⟩ | ⟨j, hj, hq, hsp, htt⟩
    · rcases selectStep_prov s a with ⟨g1, g2⟩ | ⟨gq, gsp, gtt⟩
      · exact Or.inl ⟨by rw [h1, g1], by rw [h2, g2]⟩
      · exact Or.inr ⟨a, List.mem_cons_self a t,
          gq, by rw [← gsp, h1], by rw [h2, gtt]⟩
    · exact Or.inr ⟨j, List.mem_cons_of_mem a hj,
        by rw [htk] at hq; exact hq, by rw [htk] at hsp; exact hsp, htt⟩

/-- C6: after the selection loop of length estimation starts from the
zero-initialized length, the resulting length bounds every qualifying
track's last-minus-first span from above, and whenever some track
qualifies, a track achieving exactly the final length is recorded as the
time-source track. -/
theorem FindLength_selects_longest (s : demux_sys_t) (h0 : s.i_length = 0) :
    (∀ j, trackQual (s.tk j) →
      trackSpan (s.tk j) ≤ (selectLongest s).i_length) ∧
    ((∃ j, trackQual (s.tk j)) →
      ∃ j, trackQual (s.tk j) ∧
        trackSpan (s.tk j) = (selectLongest s).i_length ∧
        (selectLongest s).i_time_track = ((j : Nat) : Int)) := by
  constructor
  · intro j hq
    exact selectFold_ub (List.finRange PS_TK_COUNT) s j (List.mem_finRange j) hq
  · rintro ⟨j, hq⟩
    rcases selectFold_prov (List.finRange PS_TK_COUNT) s with ⟨h1, _⟩ | ⟨k, _, hk⟩
    · exfalso
      have hub := selectFold_ub (List.finRange PS_TK_COUNT) s j
        (List.mem_finRange j) hq
      have hsp : 1 ≤ trackSpan (s.tk j) := by
        obtain ⟨ha, hb⟩ := hq
        unfold trackSpan
        omega
      unfold selectLongest at *
      omega
    · exact ⟨k, hk⟩

/-- C6 witness: on the spec's example table (spans 4000 and 1000) the
selection loop yields length 4000 and records the larger-span track
(slot 0) as the time source. -/
theorem FindLength_selects_longest_witness :
    (selectLongest c6s).i_length = 4000 ∧
    (selectLongest c6s).i_time_track = 0 := by
  have hmain := FindLength_selects_longest c6s (by decide)
  have hub := hmain.1 (PS_ID_TO_TK 0) (by decide)
  have hspan0 : trackSpan (c6s.tk (PS_ID_TO_TK 0)) = 4000 := by decide
  have hspan1 : trackSpan (c6s.tk (PS_ID_TO_TK 1)) = 1000 := by decide
  obtain ⟨j, hq, hsp, htt⟩ := hmain.2 ⟨PS_ID_TO_TK 0, by decide⟩
  have hj01 : j = PS_ID_TO_TK 0 ∨ j = PS_ID_TO_TK 1 := by
    by_contra hcon
    push_neg at hcon
    obtain ⟨h0, h1⟩ := hcon
    have hinit : c6s.tk j = ps_track_init_tk := by
      show (if j = PS_ID_TO_TK 0 then trackA
            else if j = PS_ID_TO_TK 1 then trackB else ps_track_init_tk) = _
      rw [if_neg h0, if_neg h1]
    rw [hinit] at hq
    exact absurd hq (by decide)
  rw [hspan0] at hub
  rcases hj01 with rfl | rfl
  · rw [hspan0] at hsp
    refine ⟨hsp.symm, ?_⟩
    rw [htt]
    decide
  · exfalso
    rw [hspan1] at hsp
    omega

/-- C7 counterexample: with no time-source track (the fresh engine state),
the set-time operation with target 0 returns the generic error, not
success — "setting time 0 always succeeds" fails. -/
theorem control_set_time_c7_counterexample :
    Control_SET_TIME sInit 0 ctl0 = (sInit, VLC_EGENERIC, false, false) ∧
    sInit.i_time_track < 0 ∧ VLC_EGENERIC ≠ VLC_SUCCESS :=
  ⟨rfl, by decide, by decide⟩

/-- C7 amended: a set-time with nonzero target is rejected, without a
seek and without touching the state, when no time-source track exists,
the current presentation timestamp is not positive, or the elapsed
baseline is zero; and a set-time with target 0 succeeds (without seeking)
exactly in the baseline-zero case, that is, when a time-source track
exists, the current presentation timestamp is positive and the elapsed
baseline is zero. -/
theorem control_set_time_c7_amended (s : demux_sys_t) (i64 : Int)
    (e : ControlEnv) :
    (i64 ≠ 0 →
      (s.i_time_track < 0 ∨ s.i_current_pts ≤ 0 ∨
       s.i_current_pts - (tkAt s s.i_time_track).i_first_pts = 0) →
      Control_SET_TIME s i64 e = (s, VLC_EGENERIC, false, false)) ∧
    (0 ≤ s.i_time_track → 0 < s.i_current_pts →
      s.i_current_pts - (tkAt s s.i_time_track).i_first_pts = 0 →
      Control_SET_TIME s 0 e = (s, VLC_SUCCESS, false, false)) := by
  constructor
  · intro hne hcase
    unfold Control_SET_TIME
    dsimp only
    by_cases h1 : 0 ≤ s.i_time_track ∧ 0 < s.i_current_pts
    · rw [if_pos h1]
      have hz : s.i_current_pts - (tkAt s s.i_time_track).i_first_pts = 0 := by
        obtain ⟨ha, hb⟩ := h1
        rcases hcase with h | h | h
        · omega
        · omega
        · exact h
      rw [if_pos hz, if_pos hne]
    · rw [if_neg h1]
  · intro h1 h2 h3
    unfold Control_SET_TIME
    dsimp only
    rw [if_pos ⟨h1, h2⟩, if_pos h3, if_neg (by decide : ¬ ((0:Int) ≠ 0))]

/-- C7 witness: at a state whose elapsed baseline is zero, set-time 0
succeeds without seeking, and set-time 5 is rejected without seeking. -/
theorem control_set_time_c7_witness :
    Control_SET_TIME c8s 0 ctl0 = (c8s, VLC_SUCCESS, false, false) ∧
    Control_SET_TIME c8s 5 ctl0 = (c8s, VLC_EGENERIC, false, false) :=
  ⟨(control_set_time_c7_amended c8s 0 ctl0).2 (by decide) (by decide)
     (by decide),
   (control_set_time_c7_amended c8s 5 ctl0).1 (by decide)
     (Or.inr (Or.inr (by decide)))⟩

/-- C8 counterexample: at a state whose elapsed baseline is zero, the
set-time operation with target 0 returns success yet leaves the current
presentation timestamp at 7 (not reset to 0), leaves the last SCR
untouched, and notifies no discontinuity. -/
theorem control_c8_counterexample :
    Control_SET_TIME c8s 0 ctl0 = (c8s, VLC_SUCCESS, false, false) ∧
    c8s.i_current_pts = 7 ∧ c8s.i_current_pts ≠ 0 :=
  ⟨rfl, by decide, by decide⟩

lemma notify_spec (tk : Fin PS_TK_COUNT → ps_track_t)
    (sel : Fin PS_TK_COUNT → Bool) (i : Fin PS_TK_COUNT) :
    ((tk i).b_seen = true ∧ (tk i).es ≠ none ∧ sel i = true →
      NotifyDiscontinuity tk sel i =
        { tk i with i_next_block_flags :=
            (tk i).i_next_block_flags ||| BLOCK_FLAG_DISCONTINUITY }) ∧
    (¬ ((tk i).b_seen = true ∧ (tk i).es ≠ none ∧ sel i = true) →
      NotifyDiscontinuity tk sel i = tk i) := by
  unfold NotifyDiscontinuity
  constructor
  · intro h
    rw [if_pos h]
  · intro h
    rw [if_neg h]

/-- C8 amended: every successful set-position, and every successful
set-time that performs a seek, resets the current presentation timestamp
to zero and the last-accepted SCR to unset, and marks a discontinuity
exactly once on every seen, sink-bearing, selected track (other tracks
untouched); a successful set-time that performs no seek is the degenerate
target-0 operation at a zero elapsed baseline, which leaves the whole
state unchanged. -/
theorem control_c8_amended (s : demux_sys_t) (e : ControlEnv) (i64 : Int) :
    ((Control_SET_POSITION s e).2.1 = VLC_SUCCESS →
      (Control_SET_POSITION s e).1.i_current_pts = 0 ∧
      (Control_SET_POSITION s e).1.i_last_scr = -1 ∧
      (∀ i, ((s.tk i).b_seen = true ∧ (s.tk i).es ≠ none ∧ e.selected i = true →
          (Control_SET_POSITION s e).1.tk i =
            { s.tk i with i_next_block_flags :=
                (s.tk i).i_next_block_flags ||| BLOCK_FLAG_DISCONTINUITY }) ∧
        (¬ ((s.tk i).b_seen = true ∧ (s.tk i).es ≠ none ∧ e.selected i = true) →
          (Control_SET_POSITION s e).1.tk i = s.tk i))) ∧
    ((Control_SET_TIME s i64 e).2.1 = VLC_SUCCESS →
      (Control_SET_TIME s i64 e).2.2.1 = true →
      (Control_SET_TIME s i64 e).1.i_current_pts = 0 ∧
      (Control_SET_TIME s i64 e).1.i_last_scr = -1 ∧
      (∀ i, ((s.tk i).b_seen = true ∧ (s.tk i).es ≠ none ∧ e.selected i = true →
          (Control_SET_TIME s i64 e).1.tk i =
            { s.tk i with i_next_block_flags :=
                (s.tk i).i_next_block_flags ||| BLOCK_FLAG_DISCONTINUITY }) ∧
        (¬ ((s.tk i).b_seen = true ∧ (s.tk i).es ≠ none ∧ e.selected i = true) →
          (Control_SET_TIME s i64 e).1.tk i = s.tk i))) ∧
    ((Control_SET_TIME s i64 e).2.1 = VLC_SUCCESS →
      (Control_SET_TIME s i64 e).2.2.1 = false →
      (Control_SET_TIME s i64 e).1 = s ∧ i64 = 0) := by
  refine ⟨?_, ?_, ?_⟩
  · intro hret
    unfold Control_SET_POSITION at *
    dsimp only at *
    by_cases hs : e.seek_ok = true
    · rw [if_pos hs]
      refine ⟨rfl, rfl, fun i => ⟨fun h => ?_, fun h => ?_⟩⟩
      · exact (notify_spec _ e.selected i).1 h
      · exact (notify_spec _ e.selected i).2 h
    · rw [if_neg hs] at hret
      simp [VLC_EGENERIC, VLC_SUCCESS] at hret
  · intro hret hseek
    unfold Control_SET_TIME at *
    dsimp only at *
    by_cases h1 : 0 ≤ s.i_time_track ∧ 0 < s.i_current_pts
    · rw [if_pos h1] at hret hseek ⊢
      by_cases hz : s.i_current_pts - (tkAt s s.i_time_track).i_first_pts = 0
      · rw [if_pos hz] at hseek
        simp at hseek
      · rw [if_neg hz] at hret ⊢
        by_cases hs : e.seek_ok = true
        · rw [if_pos hs]
          refine ⟨rfl, rfl, fun i => ⟨fun h => ?_, fun h => ?_⟩⟩
          · exact (notify_spec _ e.selected i).1 h
          · exact (notify_spec _ e.selected i).2 h
        · rw [if_neg hs] at hret
          simp [VLC_EGENERIC, VLC_SUCCESS] at hret
    · rw [if_neg h1] at hseek
      simp at hseek
  · intro hret hseek
    unfold Control_SET_TIME at *
    dsimp only at *
    by_cases h1 : 0 ≤ s.i_time_track ∧ 0 < s.i_current_pts
    · rw [if_pos h1] at hret hseek ⊢
      by_cases hz : s.i_current_pts - (tkAt s s.i_time_track).i_first_pts = 0
      · rw [if_pos hz] at hret ⊢
        refine ⟨rfl, ?_⟩
        by_cases h64 : i64 ≠ 0
        · rw [if_pos h64] at hret
          simp [VLC_EGENERIC, VLC_SUCCESS] at hret
        · omega
      · rw [if_neg hz] at hseek
        by_cases hs : e.seek_ok = true
        · rw [if_pos hs] at hseek
          simp at hseek
        · rw [if_neg hs] at hseek
          simp at hseek
    · rw [if_neg h1] at hret
      simp [VLC_EGENERIC, VLC_SUCCESS] at hret

/-- C8 witness: a seek-performing successful set-time at a state with a
nonzero elapsed baseline resets the presentation timestamp and last SCR
and marks the discontinuities. -/
theorem control_c8_witness :
    (Control_SET_TIME c7sW 5 ctl0).1.i_current_pts = 0 ∧
    (Control_SET_TIME c7sW 5 ctl0).1.i_last_scr = -1 ∧
    (∀ i, ((c7sW.tk i).b_seen = true ∧ (c7sW.tk i).es ≠ none ∧
        ctl0.selected i = true →
        (Control_SET_TIME c7sW 5 ctl0).1.tk i =
          { c7sW.tk i with i_next_block_flags :=
              (c7sW.tk i).i_next_block_flags ||| BLOCK_FLAG_DISCONTINUITY }) ∧
      (¬ ((c7sW.tk i).b_seen = true ∧ (c7sW.tk i).es ≠ none ∧
          ctl0.selected i = true) →
        (Control_SET_TIME c7sW 5 ctl0).1.tk i = c7sW.tk i)) :=
  (control_c8_amended c7sW ctl0 5).2.1 rfl rfl

lemma selectLongest_tk (s : demux_sys_t) : (selectLongest s).tk = s.tk := by
  unfold selectLongest
  exact selectFold_tk _ s

lemma fst_pair {A B : Type} (a : A) (b : B) : (a, b).1 = a := rfl

/-- C10 amended: in a Demux call in which the length-estimation probe
does not run (length already known or source unseekable) and the packet
read comes back shorter than 4 bytes, the packet is released and the call
returns the generic error with no downstream effect; the engine state is
unchanged except for the lost-sync flag cleared on regaining sync. -/
theorem demux_c10_amended (s : demux_sys_t) (env : DemuxEnv) (buf : List Nat)
    (h1 : 0 < env.i_ret) (h2 : ¬ (s.i_length < 0 ∧ s.b_seekable = true))
    (h3 : env.pkt = some buf) (h4 : buf.length < 4) :
    Demux s env = ({ s with b_lost_sync := false }, [], VLC_DEMUXER_EGENERIC) := by
  unfold Demux
  rw [if_neg (by omega), if_neg (by omega)]
  dsimp only
  rw [if_neg h2, h3]
  dsimp only
  rw [if_pos h4]

/-- C10 witness: a fresh non-seekable engine receiving a 2-byte packet
returns the generic error leaving tracks, PSM and clock state intact. -/
theorem demux_c10_witness :
    Demux (initState false false) c10envW =
      ({ initState false false with b_lost_sync := false }, [],
        VLC_DEMUXER_EGENERIC) :=
  demux_c10_amended (initState false false) c10envW [0, 0] (by decide)
    (by decide) rfl (by decide)

lemma Demux_flen_short_pkt (s : demux_sys_t) (env : DemuxEnv) (buf : List Nat)
    (h1 : 0 < env.i_ret) (h2 : s.i_length < 0 ∧ s.b_seekable = true)
    (hbuf : env.pkt = some buf) (hlen : buf.length < 4)
    (hok : (FindLength { s with b_lost_sync := false } env.flen).2 = true) :
    Demux s env =
      ((FindLength { s with b_lost_sync := false } env.flen).1, [],
        VLC_DEMUXER_EGENERIC) := by
  unfold Demux
  rw [if_neg (by omega), if_neg (by omega)]
  dsimp only
  rw [if_pos h2, hok, if_neg (by decide), hbuf]
  dsimp only
  rw [if_pos hlen]

/-- C10 counterexample: a call whose packet read returns a 2-byte packet
does return the generic error, but in the same call the length-estimation
probe has already recorded a first timestamp on an audio track — track
state is modified, contradicting the claim that no track state changes in
such a call. -/
theorem demux_c10_counterexample :
    (Demux c10s c10env).2.2 = VLC_DEMUXER_EGENERIC ∧
    c10env.pkt = some [0, 0] ∧
    ((Demux c10s c10env).1.tk (PS_ID_TO_TK 0xC0)).i_first_pts = 100 ∧
    (c10s.tk (PS_ID_TO_TK 0xC0)).i_first_pts = -1 := by
  have hF : FindLength { c10s with b_lost_sync := false } c10env.flen =
      (selectLongest (runProbes { c10s with b_lost_sync := false, i_length := 0 }
        false 40 [audioProbe]), true) := by
    unfold FindLength
    rw [if_neg (by decide), if_pos (by decide)]
    dsimp only
    rw [if_pos (by decide), if_neg (by decide)]
    congr 1
  have hD := Demux_flen_short_pkt c10s c10env [0, 0] (by decide) (by decide)
    rfl (by decide) (by rw [hF])
  refine ⟨?_, rfl, ?_, by decide⟩
  · rw [hD]
  · rw [hD, fst_pair, hF, fst_pair, selectLongest_tk]
    decide

lemma elemFirstSight_seen (tk : ps_track_t) (env : DemuxEnv)
    (slot : Fin PS_TK_COUNT) : (elemFirstSight tk env slot).1.b_seen = true := by
  unfold elemFirstSight
  split_ifs with h1 h2
  · rfl
  · rfl
  · simpa using h1

lemma elemWinSubMux_bad (s : demux_sys_t) (tk : ps_track_t) :
    (elemWinSubMux s tk).b_bad_scr = s.b_bad_scr := by
  unfold elemWinSubMux
  split_ifs <;> rfl

lemma elemWinSubMux_pack (s : demux_sys_t) (tk : ps_track_t) :
    (elemWinSubMux s tk).b_have_pack = s.b_have_pack := by
  unfold elemWinSubMux
  split_ifs <;> rfl

lemma elemScrCheck_pack (s : demux_sys_t) (tk : ps_track_t) :
    (elemScrCheck s tk).1.b_have_pack = s.b_have_pack := by
  unfold elemScrCheck
  split_ifs <;> rfl

lemma elemScrCheck_bad_mono (s : demux_sys_t) (tk : ps_track_t)
    (h : s.b_bad_scr = true) : (elemScrCheck s tk).1.b_bad_scr = true := by
  unfold elemScrCheck
  rw [if_neg (by simp [h])]
  exact h

lemma elemPes_force (s : demux_sys_t) (tk : ps_track_t)
    (slot : Fin PS_TK_COUNT) (b_new : Bool) (env : DemuxEnv)
    (hseen : tk.b_seen = true) (hes : tk.es ≠ none)
    (hpes : env.pes_ok = true) (hcat : tk.i_cat = AUDIO_ES)
    (hpts : VLC_TS_INVALID < env.pes_pts)
    (hcond : (b_new = false ∧ s.b_have_pack = false) ∨ s.b_bad_scr = true) :
    DemuxEvent.pcrForced env.pes_pts ∈ (elemPes s tk slot b_new env).2 := by
  unfold elemPes
  rw [if_pos ⟨hseen, hes, hpes⟩]
  dsimp only
  by_cases hC1 : (tk.i_cat = AUDIO_ES ∨ tk.i_cat = VIDEO_ES) ∧
      s.b_bad_scr = false ∧ 0 < s.i_scr ∧ 0 < env.pes_pts ∧
      env.pes_pts + CLOCK_FREQ / 4 < s.i_scr
  · rw [if_pos hC1, if_pos ⟨Or.inr rfl, hcat, hpts⟩]
    simp
  · rw [if_neg hC1, if_pos ⟨hcond, hcat, hpts⟩]
    simp

lemma elemWinSubMux_id (s : demux_sys_t) (tk : ps_track_t)
    (h1 : tk.i_codec ≠ VLC_CODEC_OGT) (h2 : tk.i_codec ≠ VLC_CODEC_CVD) :
    elemWinSubMux s tk = s := by
  unfold elemWinSubMux
  rw [if_neg]
  rintro ⟨-, hc | hc⟩
  · exact h1 hc
  · exact h2 hc

/-- C1 counterexample: two elementary dispatches on which the claim's
conditions hold yet no timestamp is pushed.  First: an audio track freshly
created on this call (claim: "freshly created" alone suffices), PES parse
succeeding with positive timestamp 5, no pack header seen, SCR enabled —
the emitted effects are exactly sink creation and the forward, with no
ES_OUT_SET_PCR.  Second: a seen video track with no pack header seen (the
claim includes video) — the only effect is the forward. -/
theorem demux_c1_counterexample :
    (elemDispatch c1sA c1envA).2.1 =
      [DemuxEvent.esAdd (PS_ID_TO_TK 0xC0) 7,
       DemuxEvent.esSend (PS_ID_TO_TK 0xC0)] ∧
    (c1sA.tk (PS_ID_TO_TK 0xC0)).b_seen = false ∧ c1envA.fill_ok = true ∧
    c1envA.fill_cat = AUDIO_ES ∧ c1envA.pes_ok = true ∧
    VLC_TS_INVALID < c1envA.pes_pts ∧ c1sA.b_have_pack = false ∧
    c1sA.b_bad_scr = false ∧
    (elemDispatch c1sV c1envV).2.1 = [DemuxEvent.esSend (PS_ID_TO_TK 0xE0)] ∧
    (c1sV.tk (PS_ID_TO_TK 0xE0)).i_cat = VIDEO_ES ∧
    (c1sV.tk (PS_ID_TO_TK 0xE0)).es ≠ none ∧ c1envV.pes_ok = true ∧
    VLC_TS_INVALID < c1envV.pes_pts ∧ c1sV.b_have_pack = false ∧
    c1sV.b_bad_scr = false := by decide

/-- C1 amended: in the elementary dispatch, when the PES parse succeeds on
a sink-bearing track, the timestamp is force-pushed as the downstream
clock if the track is an audio track, the timestamp is positive, and
either the track was not freshly created and no pack header has been seen,
or SCR is disabled. -/
theorem demux_c1_amended (s : demux_sys_t) (env : DemuxEnv)
    (hpes : env.pes_ok = true) (hes : (elemTrack s env).es ≠ none)
    (hcat : (elemTrack s env).i_cat = AUDIO_ES)
    (hpts : VLC_TS_INVALID < env.pes_pts)
    (hcond : (elemBNew s env = false ∧ s.b_have_pack = false) ∨
             s.b_bad_scr = true) :
    DemuxEvent.pcrForced env.pes_pts ∈ (elemDispatch s env).2.1 := by
  unfold elemTrack elemSlot at hes hcat
  unfold elemBNew elemSlot at hcond
  unfold elemDispatch
  dsimp only
  refine List.mem_append_right _ ?_
  apply elemPes_force
  · exact elemFirstSight_seen _ _ _
  · exact hes
  · exact hpes
  · exact hcat
  · exact hpts
  · rcases hcond with ⟨hbn, hbp⟩ | hbad
    · left
      refine ⟨hbn, ?_⟩
      rw [elemScrCheck_pack, elemWinSubMux_pack]
      exact hbp
    · right
      apply elemScrCheck_bad_mono
      rw [elemWinSubMux_bad]
      exact hbad

/-- C1 witness: a seen audio track with a sink, no pack header seen yet,
SCR enabled, receiving a PES with timestamp 9: the timestamp is pushed. -/
theorem demux_c1_witness :
    DemuxEvent.pcrForced 9 ∈ (elemDispatch c1sW c1envW).2.1 :=
  demux_c1_amended c1sW c1envW rfl (by decide) (by decide) (by decide)
    (Or.inl ⟨by decide, rfl⟩)

lemma Demux2_scalars (s : demux_sys_t) (b : Bool) (e : Demux2Env) :
    (Demux2 s b e).1.psm_version = s.psm_version ∧
    (Demux2 s b e).1.i_scr = s.i_scr ∧
    (Demux2 s b e).1.i_last_scr = s.i_last_scr ∧
    (Demux2 s b e).1.i_mux_rate = s.i_mux_rate ∧
    (Demux2 s b e).1.i_current_pts = s.i_current_pts ∧
    (Demux2 s b e).1.i_aob_mlp_count = s.i_aob_mlp_count ∧
    (Demux2 s b e).1.b_bad_scr = s.b_bad_scr ∧
    (Demux2 s b e).1.b_seekable = s.b_seekable ∧
    (Demux2 s b e).1.b_cdxa = s.b_cdxa ∧
    (Demux2 s b e).1.i_length = s.i_length ∧
    (Demux2 s b e).1.i_time_track = s.i_time_track := by
  unfold Demux2
  dsimp only
  split_ifs <;>
    exact ⟨rfl, rfl, rfl, rfl, rfl, rfl, rfl, rfl, rfl, rfl, rfl⟩

lemma Demux2_tk (s : demux_sys_t) (b : Bool) (e : Demux2Env)
    (i : Fin PS_TK_COUNT) :
    ((Demux2 s b e).1.tk i).b_seen = (s.tk i).b_seen ∧
    ((Demux2 s b e).1.tk i).es = (s.tk i).es ∧
    ((Demux2 s b e).1.tk i).i_cat = (s.tk i).i_cat ∧
    ((Demux2 s b e).1.tk i).i_codec = (s.tk i).i_codec ∧
    ((Demux2 s b e).1.tk i).i_skip = (s.tk i).i_skip ∧
    ((Demux2 s b e).1.tk i).i_next_block_flags = (s.tk i).i_next_block_flags := by
  unfold Demux2
  dsimp only
  split_ifs <;>
    first
    | exact ⟨rfl, rfl, rfl, rfl, rfl, rfl⟩
    | (unfold updTk
       dsimp only
       by_cases hi : i = PS_ID_TO_TK e.i_id
       · rw [if_pos hi, hi]
         exact ⟨rfl, rfl, rfl, rfl, rfl, rfl⟩
       · rw [if_neg hi]
         exact ⟨rfl, rfl, rfl, rfl, rfl, rfl⟩)

lemma probePreserved_refl (s : demux_sys_t) : ProbePreserved s s :=
  ⟨rfl, rfl, rfl, rfl, rfl, rfl, rfl, rfl, rfl,
   fun _ => ⟨rfl, rfl, rfl, rfl, rfl, rfl⟩⟩

lemma probePreserved_trans {a b c : demux_sys_t}
    (h1 : ProbePreserved a b) (h2 : ProbePreserved b c) :
    ProbePreserved a c := by
  obtain ⟨p1, p2, p3, p4, p5, p6, p7, p8, p9, pt⟩ := h1
  obtain ⟨q1, q2, q3, q4, q5, q6, q7, q8, q9, qt⟩ := h2
  refine ⟨q1.trans p1, q2.trans p2, q3.trans p3, q4.trans p4, q5.trans p5,
    q6.trans p6, q7.trans p7, q8.trans p8, q9.trans p9, fun i => ?_⟩
  obtain ⟨a1, a2, a3, a4, a5, a6⟩ := pt i
  obtain ⟨b1, b2, b3, b4, b5, b6⟩ := qt i
  exact ⟨b1.trans a1, b2.trans a2, b3.trans a3, b4.trans a4, b5.trans a5,
    b6.trans a6⟩

lemma Demux2_pres (s : demux_sys_t) (b : Bool) (e : Demux2Env) :
    ProbePreserved s (Demux2 s b e).1 := by
  obtain ⟨p1, p2, p3, p4, p5, p6, p7, p8, p9, -, -⟩ := Demux2_scalars s b e
  exact ⟨p1, p2, p3, p4, p5, p6, p7, p8, p9, fun i => Demux2_tk s b e i⟩

lemma runProbes_pres (l : List Demux2Env) :
    ∀ (limit : Nat) (s : demux_sys_t) (b : Bool),
      ProbePreserved s (runProbes s b limit l) := by
  induction l with
  | nil =>
    intro limit s b
    simp only [runProbes]
    exact probePreserved_refl s
  | cons e es ih =>
    intro limit s b
    cases limit with
    | zero =>
      simp only [runProbes]
      exact probePreserved_refl s
    | succ n =>
      simp only [runProbes]
      split_ifs
      · exact probePreserved_trans (Demux2_pres s b e) (ih n _ b)
      · exact Demux2_pres s b e

lemma selectStep_pres (s : demux_sys_t) (i : Fin PS_TK_COUNT) :
    ProbePreserved s (selectStep s i) := by
  unfold selectStep
  dsimp only
  split_ifs <;>
    exact ⟨rfl, rfl, rfl, rfl, rfl, rfl, rfl, rfl, rfl,
      fun _ => ⟨rfl, rfl, rfl, rfl, rfl, rfl⟩⟩

lemma selectFold_pres (l : List (Fin PS_TK_COUNT)) :
    ∀ s : demux_sys_t, ProbePreserved s (l.foldl selectStep s) := by
  induction l with
  | nil => intro s; exact probePreserved_refl s
  | cons a t ih =>
    intro s
    rw [List.foldl_cons]
    exact probePreserved_trans (selectStep_pres s a) (ih _)

lemma selectLongest_pres (s : demux_sys_t) :
    ProbePreserved s (selectLongest s) := by
  unfold selectLongest
  exact selectFold_pres _ s

lemma FindLength_pres (s : demux_sys_t) (e : FLenEnv) :
    ProbePreserved s (FindLength s e).1 := by
  have hlen : ∀ t : demux_sys_t, ProbePreserved t ({ t with i_length := 0 }) :=
    fun t => ⟨rfl, rfl, rfl, rfl, rfl, rfl, rfl, rfl, rfl,
      fun _ => ⟨rfl, rfl, rfl, rfl, rfl, rfl⟩⟩
  unfold FindLength
  by_cases h1 : e.trust = false
  · rw [if_pos h1]
    exact probePreserved_refl s
  · rw [if_neg h1]
    by_cases h2 : s.i_length = -1
    · rw [if_pos h2]
      dsimp only
      by_cases h3 : e.seek_end_ok = true
      · rw [if_pos h3]
        by_cases h4 : 0 ≤ e.i_current_pos ∧ e.seek_back_ok = false
        · rw [if_pos h4]
          dsimp only
          exact probePreserved_trans (hlen s)
            (probePreserved_trans
              (runProbes_pres e.probes1 40 { s with i_length := 0 } false)
              (runProbes_pres e.probes2 400
                (runProbes { s with i_length := 0 } false 40 e.probes1) true))
        · rw [if_neg h4]
          dsimp only
          exact probePreserved_trans (hlen s)
            (probePreserved_trans
              (runProbes_pres e.probes1 40 { s with i_length := 0 } false)
              (probePreserved_trans
                (runProbes_pres e.probes2 400
                  (runProbes { s with i_length := 0 } false 40 e.probes1) true)
                (selectLongest_pres
                  (runProbes
                    (runProbes { s with i_length := 0 } false 40 e.probes1)
                    true 400 e.probes2))))
      · rw [if_neg h3]
        dsimp only
        exact probePreserved_trans (hlen s)
          (runProbes_pres e.probes1 40 { s with i_length := 0 } false)
    · rw [if_neg h2]
      dsimp only
      exact selectLongest_pres s

lemma elemScrCheck_events_bad (s : demux_sys_t) (tk : ps_track_t)
    (h : s.b_bad_scr = true) : (elemScrCheck s tk).2 = [] := by
  unfold elemScrCheck
  rw [if_neg (by simp [h])]

lemma elemPes_bad_mono (s : demux_sys_t) (tk : ps_track_t)
    (slot : Fin PS_TK_COUNT) (b : Bool) (env : DemuxEnv)
    (h : s.b_bad_scr = true) : (elemPes s tk slot b env).1.b_bad_scr = true := by
  unfold elemPes
  dsimp only
  split_ifs <;> first | rfl | exact h

lemma elemPes_no_scr (s : demux_sys_t) (tk : ps_track_t)
    (slot : Fin PS_TK_COUNT) (b : Bool) (env : DemuxEnv) (v : Int) :
    DemuxEvent.pcrFromScr v ∉ (elemPes s tk slot b env).2 := by
  unfold elemPes
  dsimp only
  split_ifs <;> simp

lemma elemFirstSight_no_scr (tk : ps_track_t) (env : DemuxEnv)
    (slot : Fin PS_TK_COUNT) (v : Int) :
    DemuxEvent.pcrFromScr v ∉ (elemFirstSight tk env slot).2.2 := by
  unfold elemFirstSight
  split_ifs <;> simp

lemma elemDispatch_bad_pres (s : demux_sys_t) (env : DemuxEnv)
    (h : s.b_bad_scr = true) :
    (elemDispatch s env).1.b_bad_scr = true ∧
    ∀ v, DemuxEvent.pcrFromScr v ∉ (elemDispatch s env).2.1 := by
  unfold elemDispatch
  dsimp only
  constructor
  · apply elemPes_bad_mono
    apply elemScrCheck_bad_mono
    rw [elemWinSubMux_bad]
    exact h
  · intro v hv
    rw [List.mem_append, List.mem_append] at hv
    rcases hv with (hv | hv) | hv
    · exact elemFirstSight_no_scr _ _ _ v hv
    · rw [elemScrCheck_events_bad] at hv
      · exact absurd hv (List.not_mem_nil _)
      · rw [elemWinSubMux_bad]
        exact h
    · exact elemPes_no_scr _ _ _ _ _ v hv

lemma sysDispatch_no_scr (s : demux_sys_t) (env : DemuxEnv) (v : Int) :
    DemuxEvent.pcrFromScr v ∉ (sysDispatch s env).2.1 := by
  unfold sysDispatch
  split_ifs
  · dsimp only
    intro hv
    rw [List.mem_map] at hv
    obtain ⟨i, -, hi⟩ := hv
    simp at hi
  · simp

lemma sysDispatch_bad (s : demux_sys_t) (env : DemuxEnv) :
    (sysDispatch s env).1.b_bad_scr = s.b_bad_scr := by
  unfold sysDispatch
  split_ifs <;> rfl

lemma demuxPacket_bad_pres (s : demux_sys_t) (env : DemuxEnv) (buf : List Nat)
    (h : s.b_bad_scr = true) :
    (demuxPacket s env buf).1.b_bad_scr = true ∧
    ∀ v, DemuxEvent.pcrFromScr v ∉ (demuxPacket s env buf).2.1 := by
  unfold demuxPacket
  dsimp only
  split_ifs <;>
    first
    | exact ⟨h, fun v => by simp⟩
    | exact ⟨by rw [sysDispatch_bad]; exact h, fun v => sysDispatch_no_scr s env v⟩
    | exact elemDispatch_bad_pres s env h

lemma Demux_bad_pres (s : demux_sys_t) (env : DemuxEnv)
    (h : s.b_bad_scr = true) :
    (Demux s env).1.b_bad_scr = true ∧
    ∀ v, DemuxEvent.pcrFromScr v ∉ (Demux s env).2.1 := by
  unfold Demux
  by_cases h1 : env.i_ret < 0
  · rw [if_pos h1]
    exact ⟨h, fun v => by simp⟩
  · rw [if_neg h1]
    by_cases h2 : env.i_ret = 0
    · rw [if_pos h2]
      dsimp only
      exact ⟨h, fun v => by simp⟩
    · rw [if_neg h2]
      dsimp only
      by_cases h3 : s.i_length < 0 ∧ s.b_seekable = true
      · rw [if_pos h3]
        have hbad :
            (FindLength { s with b_lost_sync := false } env.flen).1.b_bad_scr
              = true := by
          have hp := FindLength_pres { s with b_lost_sync := false } env.flen
          unfold ProbePreserved at hp
          rw [hp.2.2.2.2.2.2.1]
          exact h
        by_cases h4 :
            (FindLength { s with b_lost_sync := false } env.flen).2 = false
        · rw [if_pos h4]
          exact ⟨hbad, fun v => by simp⟩
        · rw [if_neg h4]
          cases hpkt : env.pkt with
          | none =>
            dsimp only
            exact ⟨hbad, fun v => by simp⟩
          | some buf =>
            dsimp only
            by_cases h5 : buf.length < 4
            · rw [if_pos h5]
              exact ⟨hbad, fun v => by simp⟩
            · rw [if_neg h5]
              exact demuxPacket_bad_pres _ env buf hbad
      · rw [if_neg h3]
        cases hpkt : env.pkt with
        | none =>
          dsimp only
          exact ⟨h, fun v => by simp⟩
        | some buf =>
          dsimp only
          by_cases h5 : buf.length < 4
          · rw [if_pos h5]
            exact ⟨h, fun v => by simp⟩
          · rw [if_neg h5]
            exact demuxPacket_bad_pres _ env buf h

lemma DemuxTrace_bad_pres (envs : List DemuxEnv) :
    ∀ s : demux_sys_t, s.b_bad_scr = true →
      (DemuxTrace s envs).1.b_bad_scr = true ∧
      ∀ v, DemuxEvent.pcrFromScr v ∉ (DemuxTrace s envs).2 := by
  induction envs with
  | nil => intro s h; exact ⟨h, fun v => by simp [DemuxTrace]⟩
  | cons env rest ih =>
    intro s h
    obtain ⟨h1, h2⟩ := Demux_bad_pres s env h
    obtain ⟨h3, h4⟩ := ih (Demux s env).1 h1
    refine ⟨h3, fun v hv => ?_⟩
    have hv2 : DemuxEvent.pcrFromScr v ∈
        (Demux s env).2.1 ++ (DemuxTrace (Demux s env).1 rest).2 := hv
    rw [List.mem_append] at hv2
    rcases hv2 with hv2 | hv2
    · exact h2 v hv2
    · exact h4 v hv2

lemma elemScrCheck_trigger (s : demux_sys_t) (tk : ps_track_t)
    (h1 : 0 ≤ s.i_scr) (h2 : s.b_bad_scr = false)
    (h3 : tk.i_cat = AUDIO_ES ∨ tk.i_cat = VIDEO_ES)
    (h4 : VLC_TS_INVALID < tk.i_first_pts)
    (h5 : CLOCK_FREQ < tk.i_first_pts - s.i_scr) :
    elemScrCheck s tk = ({ s with b_bad_scr := true }, []) := by
  unfold elemScrCheck
  rw [if_pos ⟨h1, h2⟩, if_pos ⟨h3, h4, h5⟩]

/-- C2: once an elementary dispatch sees a pending non-negative SCR, SCR
still enabled, on an audio/video track (of a codec that does not
invalidate SCR) whose known first timestamp exceeds the SCR by more than
one clock second, the SCR-disabled flag is set and no SCR-path clock push
is emitted on that call; and from any state with the flag set, every
subsequent Demux call of the session keeps the flag set and never pushes
an SCR value to the downstream clock via the SCR path. -/
theorem demux_c2_scr_disable :
    (∀ s env,
      0 ≤ s.i_scr → s.b_bad_scr = false →
      (elemTrack s env).i_codec ≠ VLC_CODEC_OGT →
      (elemTrack s env).i_codec ≠ VLC_CODEC_CVD →
      ((elemTrack s env).i_cat = AUDIO_ES ∨
       (elemTrack s env).i_cat = VIDEO_ES) →
      VLC_TS_INVALID < (elemTrack s env).i_first_pts →
      CLOCK_FREQ < (elemTrack s env).i_first_pts - s.i_scr →
      (elemDispatch s env).1.b_bad_scr = true ∧
      (∀ v, DemuxEvent.pcrFromScr v ∉ (elemDispatch s env).2.1)) ∧
    (∀ s envs, s.b_bad_scr = true →
      (DemuxTrace s envs).1.b_bad_scr = true ∧
      ∀ v, DemuxEvent.pcrFromScr v ∉ (DemuxTrace s envs).2) := by
  constructor
  · intro s env h1 h2 hc1 hc2 hcat hfp hgap
    unfold elemTrack elemSlot at hc1 hc2 hcat hfp hgap
    unfold elemDispatch
    dsimp only
    rw [elemWinSubMux_id _ _ hc1 hc2,
      elemScrCheck_trigger
        { s with i_aob_mlp_count := (aobResolve s.i_aob_mlp_count env.i_id).2 }
        _ h1 h2 hcat hfp hgap]
    dsimp only
    constructor
    · exact elemPes_bad_mono _ _ _ _ _ rfl
    · intro v hv
      rw [List.mem_append, List.mem_append] at hv
      rcases hv with (hv | hv) | hv
      · exact elemFirstSight_no_scr _ _ _ v hv
      · exact absurd hv (List.not_mem_nil _)
      · exact elemPes_no_scr _ _ _ _ _ v hv
  · intro s envs h
    exact DemuxTrace_bad_pres envs s h

/-- C2 witness: a pending SCR of 0 and a seen audio track with first
timestamp 1000001 (gap above one clock second) disable SCR with no SCR
push on that dispatch, and from a disabled state a further Demux call
keeps the flag and pushes no SCR. -/
theorem demux_c2_witness :
    ((elemDispatch c2sW c2envW).1.b_bad_scr = true ∧
     (∀ v, DemuxEvent.pcrFromScr v ∉ (elemDispatch c2sW c2envW).2.1)) ∧
    ((DemuxTrace c2sP [c2envW]).1.b_bad_scr = true ∧
     ∀ v, DemuxEvent.pcrFromScr v ∉ (DemuxTrace c2sP [c2envW]).2) :=
  ⟨demux_c2_scr_disable.1 c2sW c2envW (by decide) (by decide) (by decide)
     (by decide) (by decide) (by decide) (by decide),
   demux_c2_scr_disable.2 c2sP [c2envW] (by decide)⟩

lemma elemWinSubMux_tk (s : demux_sys_t) (tk : ps_track_t) :
    (elemWinSubMux s tk).tk = s.tk := by
  unfold elemWinSubMux
  split_ifs <;> rfl

lemma elemScrCheck_tk (s : demux_sys_t) (tk : ps_track_t) :
    (elemScrCheck s tk).1.tk = s.tk := by
  unfold elemScrCheck
  split_ifs <;> rfl

lemma elemFirstSight_flags (tk : ps_track_t) (env : DemuxEnv)
    (slot : Fin PS_TK_COUNT) :
    (elemFirstSight tk env slot).1.i_next_block_flags = tk.i_next_block_flags := by
  unfold elemFirstSight
  split_ifs <;> rfl

lemma elemPes_tk_shape (s : demux_sys_t) (tk : ps_track_t)
    (slot : Fin PS_TK_COUNT) (b : Bool) (env : DemuxEnv) :
    ∃ t', (elemPes s tk slot b env).1.tk = updTk s.tk slot t' ∧
      t'.es = tk.es ∧ t'.b_seen = tk.b_seen ∧
      (t'.i_next_block_flags = tk.i_next_block_flags ∨
       t'.i_next_block_flags = 0) := by
  unfold elemPes
  dsimp only
  split_ifs <;> exact ⟨_, rfl, rfl, rfl, by simp⟩

lemma elemDispatch_tk_shape (s : demux_sys_t) (env : DemuxEnv) :
    ∃ t', (elemDispatch s env).1.tk = updTk s.tk (elemSlot s env) t' ∧
      t'.es = (elemTrack s env).es ∧ t'.b_seen = true ∧
      (t'.i_next_block_flags = (s.tk (elemSlot s env)).i_next_block_flags ∨
       t'.i_next_block_flags = 0) := by
  obtain ⟨t', ht, hes, hseen, hfl⟩ :=
    elemPes_tk_shape
      (elemScrCheck
        (elemWinSubMux
          { s with i_aob_mlp_count := (aobResolve s.i_aob_mlp_count env.i_id).2 }
          (elemTrack s env))
        (elemTrack s env)).1
      (elemTrack s env) (elemSlot s env) (elemBNew s env) env
  refine ⟨t', ?_, hes, ?_, ?_⟩
  · simp only [elemTrack, elemSlot, elemBNew] at ht
    unfold elemDispatch
    dsimp only
    rw [ht, elemScrCheck_tk, elemWinSubMux_tk]
    rfl
  · rw [hseen]
    simp only [elemTrack, elemSlot]
    exact elemFirstSight_seen _ _ _
  · rcases hfl with h | h
    · left
      rw [h]
      simp only [elemTrack, elemSlot]
      exact elemFirstSight_flags _ _ _
    · right
      exact h

lemma elemDispatch_flags (s : demux_sys_t) (env : DemuxEnv)
    (i : Fin PS_TK_COUNT) :
    ((elemDispatch s env).1.tk i).i_next_block_flags =
      (s.tk i).i_next_block_flags ∨
    ((elemDispatch s env).1.tk i).i_next_block_flags = 0 := by
  obtain ⟨t', ht, -, -, hfl⟩ := elemDispatch_tk_shape s env
  rw [ht]
  unfold updTk
  by_cases hi : i = elemSlot s env
  · rw [if_pos hi]
    rcases hfl with h | h
    · left
      rw [h, hi]
    · right
      exact h
  · rw [if_neg hi]
    left
    rfl

lemma sysParsedTk_base (s : demux_sys_t) (env : DemuxEnv)
    (i : Fin PS_TK_COUNT) :
    (sysParsedTk s env i).es = (s.tk i).es ∧
    (sysParsedTk s env i).i_next_block_flags = (s.tk i).i_next_block_flags ∧
    ((s.tk i).b_seen = true → (sysParsedTk s env i).b_seen = true) := by
  unfold sysParsedTk
  cases hu : env.sys_upd i with
  | none => exact ⟨rfl, rfl, fun h => h⟩
  | some p =>
    obtain ⟨cat, codec⟩ := p
    exact ⟨rfl, rfl, fun _ => rfl⟩

lemma sysDispatch_flags (s : demux_sys_t) (env : DemuxEnv)
    (i : Fin PS_TK_COUNT) :
    ((sysDispatch s env).1.tk i).i_next_block_flags =
      (s.tk i).i_next_block_flags := by
  unfold sysDispatch
  split_ifs
  · dsimp only
    split_ifs
    · exact (sysParsedTk_base s env i).2.1
    · exact (sysParsedTk_base s env i).2.1
  · rfl

lemma demuxPacket_flags (s : demux_sys_t) (env : DemuxEnv) (buf : List Nat)
    (i : Fin PS_TK_COUNT) :
    ((demuxPacket s env buf).1.tk i).i_next_block_flags =
      (s.tk i).i_next_block_flags ∨
    ((demuxPacket s env buf).1.tk i).i_next_block_flags = 0 := by
  unfold demuxPacket
  dsimp only
  split_ifs <;>
    first
    | exact Or.inl rfl
    | exact Or.inl (sysDispatch_flags s env i)
    | exact elemDispatch_flags s env i

lemma Demux_flags_no_new (s : demux_sys_t) (env : DemuxEnv)
    (i : Fin PS_TK_COUNT) (h1 : 0 < env.i_ret) :
    ((Demux s env).1.tk i).i_next_block_flags =
      (s.tk i).i_next_block_flags ∨
    ((Demux s env).1.tk i).i_next_block_flags = 0 := by
  unfold Demux
  rw [if_neg (by omega), if_neg (by omega)]
  dsimp only
  by_cases h3 : s.i_length < 0 ∧ s.b_seekable = true
  · rw [if_pos h3]
    have hp := FindLength_pres { s with b_lost_sync := false } env.flen
    unfold ProbePreserved at hp
    have hfl := (hp.2.2.2.2.2.2.2.2.2 i).2.2.2.2.2
    by_cases h4 :
        (FindLength { s with b_lost_sync := false } env.flen).2 = false
    · rw [if_pos h4]
      exact Or.inl hfl
    · rw [if_neg h4]
      cases hpkt : env.pkt with
      | none => exact Or.inl hfl
      | some buf =>
        dsimp only
        by_cases h5 : buf.length < 4
        · rw [if_pos h5]
          exact Or.inl hfl
        · rw [if_neg h5]
          rcases demuxPacket_flags
              (FindLength { s with b_lost_sync := false } env.flen).1 env buf i
            with h | h
          · exact Or.inl (h.trans hfl)
          · exact Or.inr h
  · rw [if_neg h3]
    cases hpkt : env.pkt with
    | none => exact Or.inl rfl
    | some buf =>
      dsimp only
      by_cases h5 : buf.length < 4
      · rw [if_pos h5]
        exact Or.inl rfl
      · rw [if_neg h5]
        exact demuxPacket_flags { s with b_lost_sync := false } env buf i

/-- C3 counterexample: a run in which the transition from in-sync to
lost-sync happens inside the length-estimation probe (Demux2 returning
NO_SYNC while the flag is clear): the engine enters lost-sync but the
seen, sink-bearing, selected track in slot 0 receives no discontinuity
mark. -/
theorem demux_c3_counterexample :
    c3s.b_lost_sync = false ∧
    c3env.flen.probes1 = [noSyncProbe] ∧ noSyncProbe.i_ret = 0 ∧
    (c3s.tk (PS_ID_TO_TK 0)).b_seen = true ∧
    (c3s.tk (PS_ID_TO_TK 0)).es ≠ none ∧
    c3env.selected (PS_ID_TO_TK 0) = true ∧
    (Demux c3s c3env).1.b_lost_sync = true ∧
    ((Demux c3s c3env).1.tk (PS_ID_TO_TK 0)).i_next_block_flags = 0 ∧
    (c3s.tk (PS_ID_TO_TK 0)).i_next_block_flags = 0 := by decide

/-- C3 amended: a NO_SYNC result at the main Demux entry while the
lost-sync flag is clear marks a discontinuity exactly once on every seen,
sink-bearing, selected track and enters lost-sync; a NO_SYNC while
already lost marks nothing further; a call with regained sync never sets
a discontinuity mark (flags only persist or are consumed to zero); and a
NO_SYNC inside the length-estimation probe (Demux2) enters lost-sync
without marking any track. -/
theorem demux_c3_amended :
    (∀ s env, env.i_ret = 0 → s.b_lost_sync = false →
      (Demux s env).1.b_lost_sync = true ∧
      (Demux s env).2.1 = [] ∧ (Demux s env).2.2 = VLC_DEMUXER_SUCCESS ∧
      ∀ i, ((s.tk i).b_seen = true ∧ (s.tk i).es ≠ none ∧
              env.selected i = true →
              (Demux s env).1.tk i =
                { s.tk i with i_next_block_flags :=
                    (s.tk i).i_next_block_flags ||| BLOCK_FLAG_DISCONTINUITY }) ∧
           (¬ ((s.tk i).b_seen = true ∧ (s.tk i).es ≠ none ∧
               env.selected i = true) →
              (Demux s env).1.tk i = s.tk i)) ∧
    (∀ s env, env.i_ret = 0 → s.b_lost_sync = true →
      (Demux s env).1.tk = s.tk ∧ (Demux s env).1.b_lost_sync = true ∧
      (Demux s env).2.1 = []) ∧
    (∀ s env i, 0 < env.i_ret →
      ((Demux s env).1.tk i).i_next_block_flags =
        (s.tk i).i_next_block_flags ∨
      ((Demux s env).1.tk i).i_next_block_flags = 0) ∧
    (∀ s b e i, ((Demux2 s b e).1.tk i).i_next_block_flags =
      (s.tk i).i_next_block_flags) := by
  refine ⟨?_, ?_, ?_, ?_⟩
  · intro s env h0 hls
    unfold Demux
    rw [if_neg (by omega), if_pos h0]
    dsimp only
    rw [if_pos hls]
    exact ⟨rfl, rfl, rfl, fun i =>
      ⟨fun h => (notify_spec s.tk env.selected i).1 h,
       fun h => (notify_spec s.tk env.selected i).2 h⟩⟩
  · intro s env h0 hls
    unfold Demux
    rw [if_neg (by omega), if_pos h0]
    dsimp only
    rw [if_neg (by simp [hls])]
    exact ⟨rfl, rfl, rfl⟩
  · intro s env i h1
    exact Demux_flags_no_new s env i h1
  · intro s b e i
    exact (Demux2_tk s b e i).2.2.2.2.2

/-- C3 witness: a NO_SYNC at the main entry from the in-sync state with a
seen, sink-bearing, selected track marks that track once and enters
lost-sync. -/
theorem demux_c3_witness :
    (Demux c3s c3envW).1.b_lost_sync = true ∧
    (Demux c3s c3envW).2.1 = [] ∧
    (Demux c3s c3envW).2.2 = VLC_DEMUXER_SUCCESS ∧
    ∀ i, ((c3s.tk i).b_seen = true ∧ (c3s.tk i).es ≠ none ∧
            c3envW.selected i = true →
            (Demux c3s c3envW).1.tk i =
              { c3s.tk i with i_next_block_flags :=
                  (c3s.tk i).i_next_block_flags ||| BLOCK_FLAG_DISCONTINUITY }) ∧
         (¬ ((c3s.tk i).b_seen = true ∧ (c3s.tk i).es ≠ none ∧
             c3envW.selected i = true) →
            (Demux c3s c3envW).1.tk i = c3s.tk i) :=
  demux_c3_amended.1 c3s c3envW rfl rfl

lemma countAdds_nil (slot : Fin PS_TK_COUNT) : countAdds slot [] = 0 := rfl

lemma countAdds_append (slot : Fin PS_TK_COUNT) (a b : List DemuxEvent) :
    countAdds slot (a ++ b) = countAdds slot a + countAdds slot b := by
  unfold countAdds
  exact List.countP_append _ _ _

lemma countP_decide_eq (slot : Fin PS_TK_COUNT) (q : Fin PS_TK_COUNT → Bool) :
    ∀ l : List (Fin PS_TK_COUNT), l.Nodup → slot ∈ l →
      l.countP (fun i => decide (i = slot) && q i) =
        if q slot = true then 1 else 0 := by
  intro l
  induction l with
  | nil => intro _ h; exact absurd h (List.not_mem_nil slot)
  | cons a t ih =>
    intro hnd hmem
    rw [List.countP_cons]
    rcases List.mem_cons.mp hmem with heq | hmem2
    · have hnot : a ∉ t := (List.nodup_cons.mp hnd).1
      have ht0 : t.countP (fun i => decide (i = slot) && q i) = 0 := by
        rw [List.countP_eq_zero]
        intro x hx
        simp only [Bool.and_eq_true, decide_eq_true_eq]
        rintro ⟨rfl, -⟩
        exact hnot (heq ▸ hx)
      rw [ht0, ← heq]
      simp
    · have hne : a ≠ slot := fun he => (List.nodup_cons.mp hnd).1 (he ▸ hmem2)
      rw [ih (List.nodup_cons.mp hnd).2 hmem2]
      simp [hne]

lemma countAdds_filter_map (p : Fin PS_TK_COUNT → Prop) [DecidablePred p]
    (h : Fin PS_TK_COUNT → Nat) (slot : Fin PS_TK_COUNT) :
    countAdds slot
      (((List.finRange PS_TK_COUNT).filter (fun i => decide (p i))).map
        (fun i => DemuxEvent.esAdd i (h i))) = if p slot then 1 else 0 := by
  unfold countAdds
  rw [List.countP_map, List.countP_filter]
  have hfun : ((isAddFor slot ∘ fun i => DemuxEvent.esAdd i (h i)) =
      fun i : Fin PS_TK_COUNT => decide (i = slot)) := rfl
  rw [hfun]
  rw [countP_decide_eq slot (fun i => decide (p i)) (List.finRange PS_TK_COUNT)
    (List.nodup_finRange PS_TK_COUNT) (List.mem_finRange slot)]
  simp

lemma elemScrCheck_adds (s : demux_sys_t) (tk : ps_track_t)
    (slot : Fin PS_TK_COUNT) : countAdds slot (elemScrCheck s tk).2 = 0 := by
  unfold elemScrCheck countAdds
  split_ifs <;> rfl

lemma elemPes_adds (s : demux_sys_t) (tk : ps_track_t)
    (slotT : Fin PS_TK_COUNT) (b : Bool) (env : DemuxEnv)
    (slot : Fin PS_TK_COUNT) :
    countAdds slot (elemPes s tk slotT b env).2 = 0 := by
  unfold elemPes countAdds
  dsimp only
  split_ifs <;> rfl

lemma elemFirstSight_eq_new (tk : ps_track_t) (env : DemuxEnv)
    (slotT : Fin PS_TK_COUNT) (h1 : tk.b_seen = false)
    (h2 : env.fill_ok = true) :
    elemFirstSight tk env slotT =
      ({ tk with i_cat := env.fill_cat, i_codec := env.fill_codec,
                 i_skip := env.fill_skip,
                 es := some (env.es_add_handle slotT), b_seen := true },
       true, [.esAdd slotT (env.es_add_handle slotT)]) := by
  unfold elemFirstSight
  rw [if_pos h1, if_pos h2]

lemma elemFirstSight_eq_nofill (tk : ps_track_t) (env : DemuxEnv)
    (slotT : Fin PS_TK_COUNT) (h1 : tk.b_seen = false)
    (h2 : env.fill_ok = false) :
    elemFirstSight tk env slotT = ({ tk with b_seen := true }, false, []) := by
  unfold elemFirstSight
  rw [if_pos h1, if_neg (by simp [h2])]

lemma elemFirstSight_eq_seen (tk : ps_track_t) (env : DemuxEnv)
    (slotT : Fin PS_TK_COUNT) (h1 : tk.b_seen = true) :
    elemFirstSight tk env slotT = (tk, false, []) := by
  unfold elemFirstSight
  rw [if_neg (by simp [h1])]

lemma elemTrack_es (s : demux_sys_t) (env : DemuxEnv) :
    (elemTrack s env).es =
      if (s.tk (elemSlot s env)).b_seen = false ∧ env.fill_ok = true
      then some (env.es_add_handle (elemSlot s env))
      else (s.tk (elemSlot s env)).es := by
  unfold elemTrack
  by_cases h1 : (s.tk (elemSlot s env)).b_seen = false
  · by_cases h2 : env.fill_ok = true
    · rw [elemFirstSight_eq_new _ _ _ h1 h2, if_pos ⟨h1, h2⟩]
    · rw [elemFirstSight_eq_nofill _ _ _ h1 (by simpa using h2),
        if_neg (by tauto)]
  · rw [elemFirstSight_eq_seen _ _ _ (by simpa using h1), if_neg (by tauto)]

lemma elemDispatch_events_adds (s : demux_sys_t) (env : DemuxEnv)
    (slot : Fin PS_TK_COUNT) :
    countAdds slot (elemDispatch s env).2.1 =
      if (s.tk (elemSlot s env)).b_seen = false ∧ env.fill_ok = true ∧
         elemSlot s env = slot then 1 else 0 := by
  unfold elemDispatch
  dsimp only
  rw [countAdds_append, countAdds_append, elemScrCheck_adds, elemPes_adds]
  simp only [Nat.add_zero]
  simp only [elemSlot]
  by_cases h1 : (s.tk (PS_ID_TO_TK (aobResolve s.i_aob_mlp_count env.i_id).1)).b_seen = false
  · by_cases h2 : env.fill_ok = true
    · rw [elemFirstSight_eq_new _ _ _ h1 h2]
      dsimp only
      by_cases h3 : PS_ID_TO_TK (aobResolve s.i_aob_mlp_count env.i_id).1 = slot
      · rw [if_pos ⟨h1, h2, h3⟩]
        unfold countAdds isAddFor
        simp [List.countP_cons, h3]
      · rw [if_neg (fun hc => h3 hc.2.2)]
        unfold countAdds isAddFor
        simp [List.countP_cons, h3]
    · rw [elemFirstSight_eq_nofill _ _ _ h1 (by simpa using h2),
        if_neg (fun hc => h2 hc.2.1)]
      rfl
  · rw [elemFirstSight_eq_seen _ _ _ (by simpa using h1),
      if_neg (fun hc => h1 hc.1)]
    rfl

lemma notify_es_seen (tk : Fin PS_TK_COUNT → ps_track_t)
    (sel : Fin PS_TK_COUNT → Bool) (i : Fin PS_TK_COUNT) :
    (NotifyDiscontinuity tk sel i).es = (tk i).es ∧
    (NotifyDiscontinuity tk sel i).b_seen = (tk i).b_seen := by
  unfold NotifyDiscontinuity
  split_ifs <;> exact ⟨rfl, rfl⟩

lemma elemDispatch_adds_step (s : demux_sys_t) (env : DemuxEnv)
    (slot : Fin PS_TK_COUNT) (hInv : TracksInv s) :
    TracksInv (elemDispatch s env).1 ∧
    countAdds slot (elemDispatch s env).2.1 ≤ 1 ∧
    ((s.tk slot).es ≠ none → countAdds slot (elemDispatch s env).2.1 = 0) ∧
    (countAdds slot (elemDispatch s env).2.1 = 0 →
      ((elemDispatch s env).1.tk slot).es = (s.tk slot).es) ∧
    (countAdds slot (elemDispatch s env).2.1 = 1 →
      ((elemDispatch s env).1.tk slot).es ≠ none) := by
  obtain ⟨t', ht, hes, hseen, -⟩ := elemDispatch_tk_shape s env
  have hev := elemDispatch_events_adds s env slot
  have hesq := elemTrack_es s env
  refine ⟨?_, ?_, ?_, ?_, ?_⟩
  · intro j hj
    rw [ht] at hj ⊢
    unfold updTk at hj ⊢
    by_cases hjs : j = elemSlot s env
    · rw [if_pos hjs] at hj ⊢
      exact hseen
    · rw [if_neg hjs] at hj ⊢
      exact hInv j hj
  · rw [hev]
    split_ifs <;> omega
  · intro hne
    have hnc : ¬ ((s.tk (elemSlot s env)).b_seen = false ∧ env.fill_ok = true ∧
        elemSlot s env = slot) := by
      rintro ⟨hs0, -, hsl⟩
      have hsn := hInv slot hne
      rw [← hsl] at hsn
      rw [hsn] at hs0
      exact absurd hs0 (by simp)
    rw [hev, if_neg hnc]
  · intro h0
    have hnc : ¬ ((s.tk (elemSlot s env)).b_seen = false ∧ env.fill_ok = true ∧
        elemSlot s env = slot) := by
      intro hC
      rw [hev, if_pos hC] at h0
      omega
    rw [ht]
    unfold updTk
    by_cases hjs : slot = elemSlot s env
    · rw [if_pos hjs, hes, hesq]
      rw [if_neg (fun hc => hnc ⟨hc.1, hc.2, hjs.symm⟩)]
      rw [hjs]
    · rw [if_neg hjs]
  · intro h1
    have hC : (s.tk (elemSlot s env)).b_seen = false ∧ env.fill_ok = true ∧
        elemSlot s env = slot := by
      by_contra hc
      rw [hev, if_neg hc] at h1
      omega
    obtain ⟨ha, hb, hsl⟩ := hC
    rw [ht]
    unfold updTk
    rw [if_pos hsl.symm, hes, hesq, if_pos ⟨ha, hb⟩]
    simp

lemma sysDispatch_adds_step (s : demux_sys_t) (env : DemuxEnv)
    (slot : Fin PS_TK_COUNT) (hInv : TracksInv s) :
    TracksInv (sysDispatch s env).1 ∧
    countAdds slot (sysDispatch s env).2.1 ≤ 1 ∧
    ((s.tk slot).es ≠ none → countAdds slot (sysDispatch s env).2.1 = 0) ∧
    (countAdds slot (sysDispatch s env).2.1 = 0 →
      ((sysDispatch s env).1.tk slot).es = (s.tk slot).es) ∧
    (countAdds slot (sysDispatch s env).2.1 = 1 →
      ((sysDispatch s env).1.tk slot).es ≠ none) := by
  unfold sysDispatch
  split_ifs with hok
  · dsimp only
    have hcnt := countAdds_filter_map (sysAddHere s env) env.es_add_handle slot
    refine ⟨?_, ?_, ?_, ?_, ?_⟩
    · intro j hj
      dsimp only at hj ⊢
      by_cases hA : sysAddHere s env j
      · rw [if_pos hA] at hj ⊢
        exact hA.1
      · rw [if_neg hA] at hj ⊢
        rw [(sysParsedTk_base s env j).1] at hj
        exact (sysParsedTk_base s env j).2.2 (hInv j hj)
    · rw [hcnt]
      split_ifs <;> omega
    · intro hne
      have hnc : ¬ sysAddHere s env slot := by
        intro hA
        have hesn := hA.2.1
        rw [(sysParsedTk_base s env slot).1] at hesn
        exact hne hesn
      rw [hcnt, if_neg hnc]
    · intro h0
      have hnc : ¬ sysAddHere s env slot := by
        intro hA
        rw [hcnt, if_pos hA] at h0
        omega
      rw [if_neg hnc]
      exact (sysParsedTk_base s env slot).1
    · intro h1
      have hA : sysAddHere s env slot := by
        by_contra hc
        rw [hcnt, if_neg hc] at h1
        omega
      rw [if_pos hA]
      simp
  · exact ⟨hInv, by simp [countAdds], fun _ => rfl, fun _ => rfl,
      fun h => by simp [countAdds] at h⟩

lemma demuxPacket_adds_step (s : demux_sys_t) (env : DemuxEnv)
    (buf : List Nat) (slot : Fin PS_TK_COUNT) (hInv : TracksInv s) :
    TracksInv (demuxPacket s env buf).1 ∧
    countAdds slot (demuxPacket s env buf).2.1 ≤ 1 ∧
    ((s.tk slot).es ≠ none → countAdds slot (demuxPacket s env buf).2.1 = 0) ∧
    (countAdds slot (demuxPacket s env buf).2.1 = 0 →
      ((demuxPacket s env buf).1.tk slot).es = (s.tk slot).es) ∧
    (countAdds slot (demuxPacket s env buf).2.1 = 1 →
      ((demuxPacket s env buf).1.tk slot).es ≠ none) := by
  unfold demuxPacket
  dsimp only
  split_ifs <;>
    first
    | exact ⟨hInv, by simp [countAdds], fun _ => rfl, fun _ => rfl,
        fun h => by simp [countAdds] at h⟩
    | exact sysDispatch_adds_step s env slot hInv
    | exact elemDispatch_adds_step s env slot hInv

lemma Demux_adds_step (s : demux_sys_t) (env : DemuxEnv)
    (slot : Fin PS_TK_COUNT) (hInv : TracksInv s) :
    TracksInv (Demux s env).1 ∧
    countAdds slot (Demux s env).2.1 ≤ 1 ∧
    ((s.tk slot).es ≠ none → countAdds slot (Demux s env).2.1 = 0) ∧
    (countAdds slot (Demux s env).2.1 = 0 →
      ((Demux s env).1.tk slot).es = (s.tk slot).es) ∧
    (countAdds slot (Demux s env).2.1 = 1 →
      ((Demux s env).1.tk slot).es ≠ none) := by
  unfold Demux
  by_cases h1 : env.i_ret < 0
  · rw [if_pos h1]
    exact ⟨hInv, by simp [countAdds], fun _ => rfl, fun _ => rfl,
      fun h => by simp [countAdds] at h⟩
  · rw [if_neg h1]
    by_cases h2 : env.i_ret = 0
    · rw [if_pos h2]
      dsimp only
      have htk : ∀ j,
          (((if s.b_lost_sync = false then
              NotifyDiscontinuity s.tk env.selected else s.tk)) j).es =
            (s.tk j).es ∧
          (((if s.b_lost_sync = false then
              NotifyDiscontinuity s.tk env.selected else s.tk)) j).b_seen =
            (s.tk j).b_seen := by
        intro j
        split_ifs
        · exact notify_es_seen s.tk env.selected j
        · exact ⟨rfl, rfl⟩
      refine ⟨?_, by simp [countAdds], fun _ => rfl, fun _ => (htk slot).1,
        fun h => by simp [countAdds] at h⟩
      intro j hj
      show ((if s.b_lost_sync = false then
          NotifyDiscontinuity s.tk env.selected else s.tk) j).b_seen = true
      rw [(htk j).2]
      refine hInv j ?_
      intro h0
      apply hj
      show ((if s.b_lost_sync = false then
          NotifyDiscontinuity s.tk env.selected else s.tk) j).es = none
      rw [(htk j).1]
      exact h0
    · rw [if_neg h2]
      dsimp only
      by_cases h3 : s.i_length < 0 ∧ s.b_seekable = true
      · rw [if_pos h3]
        have hp := FindLength_pres { s with b_lost_sync := false } env.flen
        unfold ProbePreserved at hp
        have hpt := hp.2.2.2.2.2.2.2.2.2
        have hFes : ∀ j,
            ((FindLength { s with b_lost_sync := false } env.flen).1.tk j).es =
              (s.tk j).es := fun j => (hpt j).2.1
        have hFseen : ∀ j,
            ((FindLength { s with b_lost_sync := false }
              env.flen).1.tk j).b_seen = (s.tk j).b_seen := fun j => (hpt j).1
        have hInvF :
            TracksInv (FindLength { s with b_lost_sync := false }
              env.flen).1 := by
          intro j hj
          rw [hFseen j]
          refine hInv j ?_
          rw [← hFes j]
          exact hj
        by_cases h4 :
            (FindLength { s with b_lost_sync := false } env.flen).2 = false
        · rw [if_pos h4]
          exact ⟨hInvF, by simp [countAdds], fun _ => rfl,
            fun _ => hFes slot, fun h => by simp [countAdds] at h⟩
        · rw [if_neg h4]
          cases hpkt : env.pkt with
          | none =>
            dsimp only
            exact ⟨hInvF, by simp [countAdds], fun _ => rfl,
              fun _ => hFes slot, fun h => by simp [countAdds] at h⟩
          | some buf =>
            dsimp only
            by_cases h5 : buf.length < 4
            · rw [if_pos h5]
              exact ⟨hInvF, by simp [countAdds], fun _ => rfl,
                fun _ => hFes slot, fun h => by simp [countAdds] at h⟩
            · rw [if_neg h5]
              obtain ⟨i1, i2, i3, i4, i5⟩ := demuxPacket_adds_step
                (FindLength { s with b_lost_sync := false } env.flen).1
                env buf slot hInvF
              refine ⟨i1, i2, ?_, ?_, i5⟩
              · intro hne
                refine i3 ?_
                rw [hFes slot]
                exact hne
              · intro h0
                rw [i4 h0]
                exact hFes slot
      · rw [if_neg h3]
        cases hpkt : env.pkt with
        | none =>
          dsimp only
          exact ⟨hInv, by simp [countAdds], fun _ => rfl, fun _ => rfl,
            fun h => by simp [countAdds] at h⟩
        | some buf =>
          dsimp only
          by_cases h5 : buf.length < 4
          · rw [if_pos h5]
            exact ⟨hInv, by simp [countAdds], fun _ => rfl, fun _ => rfl,
              fun h => by simp [countAdds] at h⟩
          · rw [if_neg h5]
            exact demuxPacket_adds_step { s with b_lost_sync := false }
              env buf slot hInv

lemma DemuxTrace_adds (envs : List DemuxEnv) :
    ∀ (s : demux_sys_t) (slot : Fin PS_TK_COUNT), TracksInv s →
      TracksInv (DemuxTrace s envs).1 ∧
      countAdds slot (DemuxTrace s envs).2 ≤ 1 ∧
      ((s.tk slot).es ≠ none → countAdds slot (DemuxTrace s envs).2 = 0) ∧
      (countAdds slot (DemuxTrace s envs).2 = 0 →
        ((DemuxTrace s envs).1.tk slot).es = (s.tk slot).es) ∧
      (countAdds slot (DemuxTrace s envs).2 = 1 →
        ((DemuxTrace s envs).1.tk slot).es ≠ none) := by
  induction envs with
  | nil =>
    intro s slot hInv
    exact ⟨hInv, by simp [countAdds, DemuxTrace],
      fun _ => by simp [countAdds, DemuxTrace], fun _ => rfl,
      fun h => by simp [countAdds, DemuxTrace] at h⟩
  | cons env rest ih =>
    intro s slot hInv
    obtain ⟨d1, d2, d3, d4, d5⟩ := Demux_adds_step s env slot hInv
    obtain ⟨t1, t2, t3, t4, t5⟩ := ih (Demux s env).1 slot d1
    have hsplit : countAdds slot (DemuxTrace s (env :: rest)).2 =
        countAdds slot (Demux s env).2.1 +
        countAdds slot (DemuxTrace (Demux s env).1 rest).2 := by
      show countAdds slot
        ((Demux s env).2.1 ++ (DemuxTrace (Demux s env).1 rest).2) = _
      exact countAdds_append slot _ _
    refine ⟨t1, ?_, ?_, ?_, ?_⟩
    · rw [hsplit]
      rcases Nat.lt_or_ge (countAdds slot (Demux s env).2.1) 1 with hc | hc
      · omega
      · have hc1 : countAdds slot (Demux s env).2.1 = 1 := by omega
        have hz := t3 (d5 hc1)
        omega
    · intro hne
      rw [hsplit, d3 hne]
      have hne2 : ((Demux s env).1.tk slot).es ≠ none := by
        rw [d4 (d3 hne)]
        exact hne
      rw [t3 hne2]
    · intro h0
      rw [hsplit] at h0
      have hc1 : countAdds slot (Demux s env).2.1 = 0 := by omega
      have hc2 : countAdds slot (DemuxTrace (Demux s env).1 rest).2 = 0 := by
        omega
      calc ((DemuxTrace s (env :: rest)).1.tk slot).es
          = ((DemuxTrace (Demux s env).1 rest).1.tk slot).es := rfl
        _ = ((Demux s env).1.tk slot).es := t4 hc2
        _ = (s.tk slot).es := d4 hc1
    · intro h1
      rw [hsplit] at h1
      rcases Nat.eq_zero_or_pos (countAdds slot (Demux s env).2.1) with hc | hc
      · have hc2 : countAdds slot (DemuxTrace (Demux s env).1 rest).2 = 1 := by
          omega
        exact t5 hc2
      · have hc1 : countAdds slot (Demux s env).2.1 = 1 := by omega
        have hc2 : countAdds slot (DemuxTrace (Demux s env).1 rest).2 = 0 := by
          omega
        show ((DemuxTrace (Demux s env).1 rest).1.tk slot).es ≠ none
        rw [t4 hc2]
        exact d5 hc1

/-- C9: over every sequence of Demux calls from a state in which every
track holding a sink is marked seen (true of the initial state, and
preserved), each track slot sees at most one sink creation (es_out_Add)
in the emitted effects, and a track that already has a sink handle sees
none at all. -/
theorem demux_c9_at_most_one_add (envs : List DemuxEnv) (s : demux_sys_t)
    (slot : Fin PS_TK_COUNT) (hInv : TracksInv s) :
    countAdds slot (DemuxTrace s envs).2 ≤ 1 ∧
    ((s.tk slot).es ≠ none → countAdds slot (DemuxTrace s envs).2 = 0) := by
  obtain ⟨-, h2, h3, -, -⟩ := DemuxTrace_adds envs s slot hInv
  exact ⟨h2, h3⟩

theorem demux_c9_witness :
    TracksInv sInit ∧
    (countAdds (PS_ID_TO_TK 0xC0) (DemuxTrace sInit [c1envA, c1envA]).2 ≤ 1 ∧
     ((sInit.tk (PS_ID_TO_TK 0xC0)).es ≠ none →
       countAdds (PS_ID_TO_TK 0xC0) (DemuxTrace sInit [c1envA, c1envA]).2 = 0)) :=
  ⟨fun _ h => absurd rfl h,
   demux_c9_at_most_one_add [c1envA, c1envA] sInit (PS_ID_TO_TK 0xC0)
     (fun _ h => absurd rfl h)⟩
